import Mathlib

/-!
Verification of the scholarship ingestion pipeline utilities.

This file gives a shallow embedding, in Lean, of the Python functions of the
repository that the specification's claims are about:

* `app/utils/amount_parser.py`   — `AmountParser.parse_amount`, `validate_amount`
* `app/utils/date_parser.py`     — `parse_date`, `extract_deadline_from_text`,
                                   `is_valid_deadline`
* `app/utils/deduplication.py`   — `DuplicationDetector.detect_duplication`,
                                   `get_duplicate_groups`, `deduplicate_scholarships`
* `app/services/scraping_service.py` — `_clean_and_validate_data`,
                                   `_calculate_quality_score`, `scrape_scholarships`
* `app/services/validation_service.py` — `LinkValidationService.validate_url`

Modelling conventions:
* Python `float`/`Decimal` values are modelled as exact rationals (`ℚ`); every
  comparison appearing in a proved statement is far from any binary rounding
  boundary.
* Python strings are modelled as `List Char` / `String` (code points).
* Regular-expression searches are hand-compiled to scanners with the same
  leftmost-match, ordered-alternation, greedy semantics as CPython `re` on the
  specific patterns appearing in the source.
* `datetime` values are modelled as rational day counts since the civil epoch
  1970-01-01 (fractional part = time of day); `date` values as integer day
  counts.  `datetime.now()` is passed in explicitly as a parameter.
* Exceptions are modelled with `Option`/`Except` where control flow depends on
  them.
-/

namespace Scholarship

/-! ## Python string primitives -/

/-- Python whitespace characters (`str.strip`, `\s` for ASCII text). -/
def pyIsWs (c : Char) : Bool :=
  c = ' ' || c = '\t' || c = '\n' || c = '\x0d' || c = '\x0b' || c = '\x0c'

/-- Python word character `\w` (ASCII range). -/
def pyIsWord (c : Char) : Bool :=
  c.isAlphanum || c = '_'

/-- `str.strip()` on a character list. -/
def pyStripL (l : List Char) : List Char :=
  ((l.dropWhile pyIsWs).reverse.dropWhile pyIsWs).reverse

/-- `str.strip()`. -/
def pyStrip (s : String) : String :=
  ⟨pyStripL s.data⟩

/-- `str.lower()` (ASCII). -/
def pyLower (s : String) : String :=
  ⟨s.data.map Char.toLower⟩

/-- `sub` occurs as a contiguous subsequence of `l`. -/
def pyInL (sub : List Char) : List Char → Bool
  | [] => sub.isEmpty
  | c :: t => List.isPrefixOf sub (c :: t) || pyInL sub t

/-- Python `sub in s` substring test. -/
def pyIn (sub s : String) : Bool :=
  pyInL sub.data s.data

instance {ε α : Type} [DecidableEq ε] [DecidableEq α] : DecidableEq (Except ε α) :=
  fun x y =>
    match x, y with
    | .ok a, .ok b => if h : a = b then isTrue (by rw [h]) else isFalse (by simp [h])
    | .error a, .error b => if h : a = b then isTrue (by rw [h]) else isFalse (by simp [h])
    | .ok _, .error _ => isFalse (by simp)
    | .error _, .ok _ => isFalse (by simp)

/-! ### Kernel-computable rational arithmetic

The field operations on `ℚ` do not reduce under the kernel, so the embedding
computes with `mkRat`-based equivalents; the lemmas `qAdd_eq` … below show
they agree with the field operations, keeping statements readable in ordinary
arithmetic. -/

/-- Addition on `ℚ` by explicit cross multiplication. -/
def qAdd (a b : ℚ) : ℚ := mkRat (a.num * b.den + b.num * a.den) (a.den * b.den)

/-- Subtraction on `ℚ` by explicit cross multiplication. -/
def qSub (a b : ℚ) : ℚ := mkRat (a.num * b.den - b.num * a.den) (a.den * b.den)

/-- Multiplication on `ℚ`. -/
def qMul (a b : ℚ) : ℚ := mkRat (a.num * b.num) (a.den * b.den)

/-- Division on `ℚ` (total, `qDiv a 0 = 0` as in Lean's field division). -/
def qDiv (a b : ℚ) : ℚ := Rat.divInt (a.num * b.den) (b.num * a.den)

/-- Rational value of a digit list (most significant first). -/
def digitsVal (l : List Char) : ℕ :=
  l.foldl (fun a c => a * 10 + c.toNat - '0'.toNat) 0

/-- Value of a decimal literal `intpart[.fracpart]` given as the two digit
lists; exact, as Python `Decimal`. -/
def decimalVal (ip fp : List Char) : ℚ :=
  qAdd (mkRat (digitsVal ip) 1) (mkRat (digitsVal fp) (10 ^ fp.length))

/-! ## Regex building blocks

Hand-compiled scanners for the concrete regular expressions of the source,
with CPython `re` semantics (leftmost match, ordered alternation, greedy
quantifiers).  Recursions that walk a list while skipping variable-size chunks
take a fuel argument; callers pass `length + 1`, which every recursion below
strictly decreases, so the fuel never runs out. -/

/-- Greedy `\d+` at the head: `(matched digits, rest)`. -/
def takeDigits (l : List Char) : List Char × List Char :=
  (l.takeWhile Char.isDigit, l.dropWhile Char.isDigit)

/-- Greedy `(?:,\d+)*` at the head. -/
def commaGroups : ℕ → List Char → List Char × List Char
  | 0, l => ([], l)
  | fuel + 1, ',' :: t =>
      let ds := t.takeWhile Char.isDigit
      if ds.isEmpty then ([], ',' :: t)
      else
        let (g, r) := commaGroups fuel (t.dropWhile Char.isDigit)
        (',' :: (ds ++ g), r)
  | _ + 1, l => ([], l)

/-- Greedy optional `(?:\.\d+)?` at the head. -/
def optFrac : List Char → List Char × List Char
  | '.' :: t =>
      let ds := t.takeWhile Char.isDigit
      if ds.isEmpty then ([], '.' :: t)
      else ('.' :: ds, t.dropWhile Char.isDigit)
  | l => ([], l)

/-- `\d+(?:,\d+)*(?:\.\d+)?` at the head: `(captured group, rest)`. -/
def commaNum (l : List Char) : Option (List Char × List Char) :=
  let (ds, r) := takeDigits l
  if ds.isEmpty then none
  else
    let (g, r2) := commaGroups (r.length + 1) r
    let (f, r3) := optFrac r2
    some (ds ++ g ++ f, r3)

/-- `\d+(?:,\d+)*` (no fraction) at the head. -/
def commaIntNum (l : List Char) : Option (List Char × List Char) :=
  let (ds, r) := takeDigits l
  if ds.isEmpty then none
  else
    let (g, r2) := commaGroups (r.length + 1) r
    some (ds ++ g, r2)

/-- `\d+(?:\.\d+)?` (no comma groups) at the head. -/
def plainNum (l : List Char) : Option (List Char × List Char) :=
  let (ds, r) := takeDigits l
  if ds.isEmpty then none
  else
    let (f, r2) := optFrac r
    some (ds ++ f, r2)

/-- Numeric value of a captured group: commas removed, split at the dot
(Python `Decimal(group.replace(',', ''))`). -/
def groupVal (g : List Char) : ℚ :=
  let g' := g.filter (fun c => c != ',')
  decimalVal (g'.takeWhile (fun c => c != '.'))
    ((g'.dropWhile (fun c => c != '.')).drop 1)

/-- `re.search` driver: try the position matcher `f` at each suffix, leftmost
position first. -/
def searchL {α : Type} (f : List Char → Option α) : List Char → Option α
  | [] => f []
  | c :: t =>
    match f (c :: t) with
    | some r => some r
    | none => searchL f t

/-- `urllib.parse.urlparse` restricted to `(scheme, netloc, path)`, query and
fragment stripped (the callers below use only these three components): the
scheme is a leading letter followed by letters, digits, `+`, `-`, `.` up to a
colon; the netloc follows a `//`, ending at `/`, `?` or `#`. -/
def pyUrlparse (s : String) : String × String × String :=
  let l := s.data
  let schemeRest : List Char × List Char :=
    match l with
    | c :: _ =>
      if c.isAlpha then
        let run := l.takeWhile fun x => x.isAlphanum || x = '+' || x = '-' || x = '.'
        match l.drop run.length with
        | ':' :: rest => (run, rest)
        | _ => ([], l)
      else ([], l)
    | [] => ([], l)
  let rest := schemeRest.2
  let netlocRest : List Char × List Char :=
    if List.isPrefixOf "//".data rest then
      let nl := (rest.drop 2).takeWhile fun c => c ≠ '/' && c ≠ '?' && c ≠ '#'
      (nl, (rest.drop 2).drop nl.length)
    else ([], rest)
  let path := netlocRest.2.takeWhile fun c => c ≠ '?' && c ≠ '#'
  (⟨schemeRest.1⟩, ⟨netlocRest.1⟩, ⟨path⟩)

/-! ## `app/utils/amount_parser.py` — `AmountParser` -/

namespace AmountParser

/-- `AmountParser._init_word_to_number`. -/
def word_to_number : List (String × ℕ) :=
  [("one", 1), ("two", 2), ("three", 3), ("four", 4), ("five", 5),
   ("six", 6), ("seven", 7), ("eight", 8), ("nine", 9), ("ten", 10),
   ("eleven", 11), ("twelve", 12), ("thirteen", 13), ("fourteen", 14),
   ("fifteen", 15), ("sixteen", 16), ("seventeen", 17), ("eighteen", 18),
   ("nineteen", 19), ("twenty", 20), ("thirty", 30), ("forty", 40),
   ("fifty", 50), ("sixty", 60), ("seventy", 70), ("eighty", 80),
   ("ninety", 90), ("hundred", 100), ("thousand", 1000),
   ("lakh", 100000), ("lac", 100000), ("crore", 10000000)]

/-- Alternatives of `(?:₹|rs\.?|rupees?|inr)` in regex order (greedy optional
characters expanded: the variant with the optional character comes first). -/
def currencyAlts : List (List Char) :=
  [['₹'], "rs.".data, "rs".data, "rupees".data, "rupee".data, "inr".data]

/-- Position matcher for the `rupees` pattern
`(?:₹|rs\.?|rupees?|inr)\s*(\d+(?:,\d+)*(?:\.\d+)?)`. -/
def structAt (l : List Char) : Option ℚ :=
  currencyAlts.findSome? fun alt =>
    if List.isPrefixOf alt l then
      match commaNum ((l.drop alt.length).dropWhile pyIsWs) with
      | some (g, _) => some (groupVal g)
      | none => none
    else none

/-- `AmountParser._parse_structured_amount` (text already lowercased). -/
def parse_structured_amount (l : List Char) : Option ℚ :=
  searchL structAt l

/-- Position matcher for `(\w+)\s+<lit>`: returns the captured word and the
rest after the whole match.  `\w` and `\s` are disjoint, so the greedy word
run never needs to backtrack. -/
def wordBeforeAt (lit : List Char) (l : List Char) : Option (List Char × List Char) :=
  let w := l.takeWhile pyIsWord
  if w.isEmpty then none
  else
    let r := l.drop w.length
    let ws := r.takeWhile pyIsWs
    if ws.isEmpty then none
    else
      let r2 := r.drop ws.length
      if List.isPrefixOf lit r2 then some (w, r2.drop lit.length) else none

/-- `re.findall(r'(\w+)\s+<lit>', text)`: all non-overlapping matches, left to
right. -/
def findallWordBefore (lit : List Char) : ℕ → List Char → List (List Char)
  | 0, _ => []
  | _ + 1, [] => []
  | fuel + 1, c :: t =>
    match wordBeforeAt lit (c :: t) with
    | some (g, rest) => g :: findallWordBefore lit fuel rest
    | none => findallWordBefore lit fuel t

/-- `AmountParser._parse_word_amount` (text already lowercased). -/
def parse_word_amount (l : List Char) : Option ℚ :=
  ["lakh".data, "crore".data, "thousand".data, "hundred".data].findSome? fun lit =>
    (findallWordBefore lit (l.length + 1) l).findSome? fun w =>
      match List.lookup (⟨w⟩ : String) word_to_number with
      | some base =>
        if pyInL "lakh".data l then some (mkRat (base * 100000) 1)
        else if pyInL "crore".data l then some (mkRat (base * 10000000) 1)
        else if pyInL "thousand".data l then some (mkRat (base * 1000) 1)
        else if pyInL "hundred".data l then some (mkRat (base * 100) 1)
        else none
      | none => none

/-- Position matcher for `(\d+(?:\.\d+)?)\s*<alt₁|alt₂>s?` (the optional `s`
does not affect the captured value). -/
def suffixNumAt (alts : List (List Char)) (l : List Char) : Option ℚ :=
  match plainNum l with
  | none => none
  | some (g, r) =>
    let r2 := r.dropWhile pyIsWs
    if alts.any (fun a => List.isPrefixOf a r2) then some (groupVal g) else none

/-- `AmountParser._parse_numeric_amount` (text already lowercased): crores,
then lakhs, then thousands, then the plain `numeric` fallback. -/
def parse_numeric_amount (l : List Char) : Option ℚ :=
  match searchL (suffixNumAt ["crore".data]) l with
  | some a => some (qMul a (mkRat 10000000 1))
  | none =>
    match searchL (suffixNumAt ["lakh".data, "lac".data]) l with
    | some a => some (qMul a (mkRat 100000 1))
    | none =>
      match searchL (suffixNumAt ["thousand".data, "k".data]) l with
      | some a => some (qMul a (mkRat 1000 1))
      | none => searchL (fun l => (commaNum l).map (fun p => groupVal p.1)) l

/-- Position matcher for `(\d+(?:,\d+)*)\s*(?:to|-)\s*(\d+(?:,\d+)*)`. -/
def rangeSepAt (l : List Char) : Option (ℚ × ℚ) :=
  match commaIntNum l with
  | none => none
  | some (g1, r) =>
    let r2 := r.dropWhile pyIsWs
    let r3 :=
      if List.isPrefixOf "to".data r2 then some (r2.drop 2)
      else if List.isPrefixOf "-".data r2 then some (r2.drop 1)
      else none
    match r3 with
    | none => none
    | some r3 =>
      match commaIntNum (r3.dropWhile pyIsWs) with
      | some (g2, _) => some (groupVal g1, groupVal g2)
      | none => none

/-- Position matcher for `<word₁>\s+(\d+(?:,\d+)*)\s+<word₂>\s+(\d+(?:,\d+)*)`
(used for the `between … and …` and `from … to …` range patterns). -/
def wordRangeAt (w1 w2 : List Char) (l : List Char) : Option (ℚ × ℚ) :=
  if List.isPrefixOf w1 l then
    let r := l.drop w1.length
    let ws := r.takeWhile pyIsWs
    if ws.isEmpty then none
    else
      match commaIntNum (r.drop ws.length) with
      | none => none
      | some (g1, r2) =>
        let ws2 := r2.takeWhile pyIsWs
        if ws2.isEmpty then none
        else
          let r3 := r2.drop ws2.length
          if List.isPrefixOf w2 r3 then
            let r4 := r3.drop w2.length
            let ws3 := r4.takeWhile pyIsWs
            if ws3.isEmpty then none
            else
              match commaIntNum (r4.drop ws3.length) with
              | some (g2, _) => some (groupVal g1, groupVal g2)
              | none => none
          else none
  else none

/-- `AmountParser._parse_range_amount` (text already lowercased).  Note the
source returns `max_amount = Decimal(match.group(2))`, i.e. the *second*
bound of the range, whatever its size. -/
def parse_range_amount (l : List Char) : Option ℚ :=
  match searchL rangeSepAt l with
  | some (_, b) => some b
  | none =>
    match searchL (wordRangeAt "between".data "and".data) l with
    | some (_, b) => some b
    | none =>
      match searchL (wordRangeAt "from".data "to".data) l with
      | some (_, b) => some b
      | none => none

/-- `AmountParser.parse_amount`: lowercase and strip, then try the four
strategies in order, first success wins.  (No strategy of the embedding can
raise, so the `try/except` wrapper is the identity.) -/
def parse_amount (s : String) : Option ℚ :=
  if s = "" then none
  else
    let l := pyStripL (s.data.map Char.toLower)
    match parse_structured_amount l with
    | some a => some a
    | none =>
      match parse_word_amount l with
      | some a => some a
      | none =>
        match parse_numeric_amount l with
        | some a => some a
        | none => parse_range_amount l

/-- `AmountParser.validate_amount`. -/
def validate_amount : Option ℚ → Bool × List String
  | none => (false, ["Amount is None"])
  | some a =>
    let s1 := if a ≤ 0 then (false, ["Amount must be positive"])
              else (true, ([] : List String))
    let s2 := if a > 50000000 then (false, s1.2 ++ ["Amount seems unrealistically high"])
              else s1
    let s3 := if a < 100 then (false, s2.2 ++ ["Amount seems unrealistically low"])
              else s2
    s3

end AmountParser

/-! ## Civil calendar arithmetic

`datetime` values are rational day counts since 1970-01-01 (time of day in the
fractional part); `date` values are integer day counts.  Conversions use the
standard days-from-civil / civil-from-days algorithms. -/

/-- Floor of a rational as an integer (kernel-computable). -/
def qFloor (a : ℚ) : ℤ := Int.fdiv a.num a.den

/-- Gregorian leap year (proleptic). -/
def isLeap (y : ℤ) : Bool := (y % 4 == 0 && y % 100 != 0) || y % 400 == 0

/-- Length of month `m` (1–12) in year `y`. -/
def daysInMonth (y : ℤ) (m : ℕ) : ℕ :=
  List.getD [31, if isLeap y then 29 else 28, 31, 30, 31, 30, 31, 31, 30, 31, 30, 31]
    (m - 1) 0

/-- Day count since 1970-01-01 of the civil date `y-m-d`. -/
def daysFromCivil (y : ℤ) (m d : ℕ) : ℤ :=
  let y' : ℤ := if m ≤ 2 then y - 1 else y
  let era : ℤ := Int.fdiv y' 400
  let yoe : ℤ := y' - era * 400
  let doy : ℤ := (Int.tdiv (153 * ((m : ℤ) + (if 2 < m then -3 else 9)) + 2) 5) + (d : ℤ) - 1
  let doe : ℤ := yoe * 365 + Int.tdiv yoe 4 - Int.tdiv yoe 100 + doy
  era * 146097 + doe - 719468

/-- Civil date `(y, m, d)` of a day count since 1970-01-01. -/
def civilFromDays (z0 : ℤ) : ℤ × ℕ × ℕ :=
  let z : ℤ := z0 + 719468
  let era : ℤ := Int.fdiv z 146097
  let doe : ℕ := (z - era * 146097).toNat
  let yoe : ℕ := (doe - doe / 1460 + doe / 36524 - doe / 146096) / 365
  let doy : ℕ := doe - (365 * yoe + yoe / 4 - yoe / 100)
  let mp : ℕ := (5 * doy + 2) / 153
  let d : ℕ := doy - (153 * mp + 2) / 5 + 1
  let m : ℕ := if mp < 10 then mp + 3 else mp - 9
  ((yoe : ℤ) + era * 400 + (if m ≤ 2 then 1 else 0), m, d)

/-- Python `datetime(year, month, day)` at midnight as a day count:
`none` models the `ValueError` on out-of-range components
(`datetime.MINYEAR = 1`, `datetime.MAXYEAR = 9999`). -/
def mkDate (y : ℤ) (m d : ℕ) : Option ℤ :=
  if 1 ≤ y ∧ y ≤ 9999 ∧ 1 ≤ m ∧ m ≤ 12 ∧ 1 ≤ d ∧ d ≤ daysInMonth y m then
    some (daysFromCivil y m d)
  else none

/-- `datetime(y, m, d, h, mi, s)` as a rational day count. -/
def mkDatetime (y : ℤ) (m d h mi s : ℕ) : Option ℚ :=
  if h ≤ 23 ∧ mi ≤ 59 ∧ s ≤ 59 then
    (mkDate y m d).map fun n => mkRat (n * 86400 + (h * 3600 + mi * 60 + s : ℕ)) 86400
  else none

/-! ## `app/utils/date_parser.py` -/

namespace DateParsing

/-- Directives of the `strptime` formats used by `parse_date`, plus literal
characters and format whitespace (`\s+`). -/
inductive FTok
  | lit (c : Char)
  | ws
  | dY | dm | dd | dy | dH | dM | dS | dB | db
deriving Repr

/-- Partially filled `strptime` result (CPython defaults). -/
structure STime where
  y : ℤ := 1900
  mo : ℕ := 1
  d : ℕ := 1
  h : ℕ := 0
  mi : ℕ := 0
  s : ℕ := 0
deriving Repr

/-- Take exactly `k` leading digits. -/
def digitsPrefix (k : ℕ) (l : List Char) : Option (List Char × List Char) :=
  let pre := l.take k
  if pre.length = k && pre.all Char.isDigit then some (pre, l.drop k) else none

/-- Full month names in the order CPython's `TimeRE` tries them for `%B`
(sorted by length, longest first, stable on the January…December order). -/
def monthsFull : List (String × ℕ) :=
  [("september", 9), ("february", 2), ("november", 11), ("december", 12),
   ("january", 1), ("october", 10), ("august", 8), ("march", 3), ("april", 4),
   ("june", 6), ("july", 7), ("may", 5)]

/-- Abbreviated month names for `%b`. -/
def monthsAbbr : List (String × ℕ) :=
  [("jan", 1), ("feb", 2), ("mar", 3), ("apr", 4), ("may", 5), ("jun", 6),
   ("jul", 7), ("aug", 8), ("sep", 9), ("oct", 10), ("nov", 11), ("dec", 12)]

/-- Two-digit-count alternatives of a numeric directive, in the order of
CPython's `TimeRE` regex alternation: each entry is a predicate on the one or
two digit characters consumed. -/
def numAlts : FTok → List (ℕ × (ℕ → Bool))
  | .dY => [(4, fun _ => true)]
  | .dy => [(2, fun _ => true)]
  | .dm => [(2, fun v => 10 ≤ v && v ≤ 12), (2, fun v => 1 ≤ v && v ≤ 9), (1, fun v => 1 ≤ v)]
  | .dd => [(2, fun v => 30 ≤ v && v ≤ 31), (2, fun v => 10 ≤ v && v ≤ 29),
            (2, fun v => 1 ≤ v && v ≤ 9), (1, fun v => 1 ≤ v)]
  | .dH => [(2, fun v => 20 ≤ v && v ≤ 23), (2, fun v => v ≤ 19), (1, fun _ => true)]
  | .dM => [(2, fun v => v ≤ 59), (1, fun _ => true)]
  | .dS => [(2, fun v => v ≤ 59), (1, fun _ => true)]
  | _ => []

/-- Store the value of a numeric directive (`%y` applies CPython's
1969–2068 pivot). -/
def storeNum (t : FTok) (v : ℕ) (e : STime) : STime :=
  match t with
  | .dY => { e with y := (v : ℤ) }
  | .dy => { e with y := if v ≤ 68 then (v : ℤ) + 2000 else (v : ℤ) + 1900 }
  | .dm => { e with mo := v }
  | .dd => { e with d := v }
  | .dH => { e with h := v }
  | .dM => { e with mi := v }
  | .dS => { e with s := v }
  | _ => e

/-- Backtracking matcher for a `strptime` format over the whole input
(CPython requires the regex to consume the entire string). -/
def matchFmt : List FTok → List Char → STime → Option STime
  | [], [], e => some e
  | [], _ :: _, _ => none
  | .lit c :: ts, l, e =>
    match l with
    | c' :: t => if c = c' then matchFmt ts t e else none
    | [] => none
  | .ws :: ts, l, e =>
    let run := l.takeWhile pyIsWs
    if run.isEmpty then none else matchFmt ts (l.drop run.length) e
  | .dB :: ts, l, e =>
    monthsFull.findSome? fun (name, num) =>
      if List.isPrefixOf name.data l then
        matchFmt ts (l.drop name.data.length) { e with mo := num }
      else none
  | .db :: ts, l, e =>
    monthsAbbr.findSome? fun (name, num) =>
      if List.isPrefixOf name.data l then
        matchFmt ts (l.drop name.data.length) { e with mo := num }
      else none
  | t :: ts, l, e =>
    (numAlts t).findSome? fun (k, ok) =>
      match digitsPrefix k l with
      | some (ds, rest) =>
        let v := digitsVal ds
        if ok v then matchFmt ts rest (storeNum t v e) else none
      | none => none

/-- The `date_formats` list of `parse_date`, compiled to token lists, in
source order. -/
def date_formats : List (List FTok) :=
  [ [.dY, .lit '-', .dm, .lit '-', .dd],
    [.dd, .lit '-', .dm, .lit '-', .dY],
    [.dd, .lit '/', .dm, .lit '/', .dY],
    [.dm, .lit '/', .dd, .lit '/', .dY],
    [.dY, .lit '/', .dm, .lit '/', .dd],
    [.dd, .lit '-', .dm, .lit '-', .dy],
    [.dd, .lit '/', .dm, .lit '/', .dy],
    [.dY, .lit '-', .dm, .lit '-', .dd, .ws, .dH, .lit ':', .dM, .lit ':', .dS],
    [.dd, .lit '-', .dm, .lit '-', .dY, .ws, .dH, .lit ':', .dM, .lit ':', .dS],
    [.dB, .ws, .dd, .lit ',', .ws, .dY],
    [.db, .ws, .dd, .lit ',', .ws, .dY],
    [.dd, .ws, .dB, .ws, .dY],
    [.dd, .ws, .db, .ws, .dY],
    [.dB, .ws, .dd, .ws, .dY],
    [.db, .ws, .dd, .ws, .dY] ]

/-- `datetime.strptime(s, fmt)` for the formats above: match, then build the
`datetime` (a `ValueError` on an impossible civil date yields `none`). -/
def strptime (fmt : List FTok) (l : List Char) : Option ℚ :=
  match matchFmt fmt l {} with
  | some e => mkDatetime e.y e.mo e.d e.h e.mi e.s
  | none => none

/-- Tokens of the relative-date search patterns
(`(\d+)\s*days?\s*ago` and friends). -/
inductive RTok
  | digits
  | word (w : List Char)
  | wsStar
  | optS
deriving Repr

/-- Prefix matcher for a relative-date pattern at a position, returning the
captured number.  `\d+` and `\s*` are deterministic here (each is followed by
a token its characters cannot start); the optional `s` backtracks. -/
def matchR : List RTok → List Char → Option ℕ → Option ℕ
  | [], _, cap => cap
  | .digits :: ts, l, _ =>
    let ds := l.takeWhile Char.isDigit
    if ds.isEmpty then none else matchR ts (l.drop ds.length) (some (digitsVal ds))
  | .word w :: ts, l, cap =>
    if List.isPrefixOf w l then matchR ts (l.drop w.length) cap else none
  | .wsStar :: ts, l, cap => matchR ts (l.dropWhile pyIsWs) cap
  | .optS :: ts, l, cap =>
    match l with
    | 's' :: t =>
      match matchR ts t cap with
      | some v => some v
      | none => matchR ts l cap
    | _ => matchR ts l cap

/-- One relative-date pattern: its tokens, the day multiplier of the unit, and
whether the delta is added (`from now` / `in`) or subtracted (`ago`). -/
structure RPat where
  toks : List RTok
  mult : ℕ
  addit : Bool

/-- The `time_patterns` list of `parse_relative_date`, in source order
(`months` are approximated by 30 days in the source). -/
def time_patterns : List RPat :=
  [ ⟨[.digits, .wsStar, .word "day".data, .optS, .wsStar, .word "ago".data], 1, false⟩,
    ⟨[.digits, .wsStar, .word "week".data, .optS, .wsStar, .word "ago".data], 7, false⟩,
    ⟨[.digits, .wsStar, .word "month".data, .optS, .wsStar, .word "ago".data], 30, false⟩,
    ⟨[.digits, .wsStar, .word "day".data, .optS, .wsStar, .word "from".data,
      .wsStar, .word "now".data], 1, true⟩,
    ⟨[.digits, .wsStar, .word "week".data, .optS, .wsStar, .word "from".data,
      .wsStar, .word "now".data], 7, true⟩,
    ⟨[.digits, .wsStar, .word "month".data, .optS, .wsStar, .word "from".data,
      .wsStar, .word "now".data], 30, true⟩,
    ⟨[.word "in".data, .wsStar, .digits, .wsStar, .word "day".data, .optS], 1, true⟩,
    ⟨[.word "in".data, .wsStar, .digits, .wsStar, .word "week".data, .optS], 7, true⟩,
    ⟨[.word "in".data, .wsStar, .digits, .wsStar, .word "month".data, .optS], 30, true⟩ ]

/-- A computed `datetime` is representable iff it lies in Python's
`datetime` range; outside it the `timedelta` arithmetic raises
`OverflowError`, which `parse_relative_date` catches and skips. -/
def dtInRange (t : ℚ) : Bool :=
  decide (mkRat (daysFromCivil 1 1 1) 1 ≤ t) &&
    decide (t < mkRat (daysFromCivil 9999 12 31 + 1) 1)

/-- `now.replace(year = now.year + δ)`: `.error ()` models the `ValueError`
raised (uncaught) when the adjusted civil date is invalid (Feb 29). -/
def replaceYear (now : ℚ) (δ : ℤ) : Except Unit ℚ :=
  let days := qFloor now
  let frac := qSub now (mkRat days 1)
  let c := civilFromDays days
  match mkDate (c.1 + δ) c.2.1 c.2.2 with
  | some n => .ok (qAdd (mkRat n 1) frac)
  | none => .error ()

/-- `parse_relative_date` (input already lowercased and stripped by
`parse_date`; the function's own `.lower().strip()` is idempotent there). -/
def parse_relative_date (now : ℚ) (l : List Char) : Except Unit (Option ℚ) :=
  if pyInL "today".data l then .ok (some now)
  else if pyInL "tomorrow".data l then .ok (some (qAdd now 1))
  else if pyInL "yesterday".data l then .ok (some (qSub now 1))
  else if pyInL "next week".data l then .ok (some (qAdd now 7))
  else if pyInL "last week".data l then .ok (some (qSub now 7))
  else if pyInL "next month".data l then .ok (some (qAdd now 30))
  else if pyInL "last month".data l then .ok (some (qSub now 30))
  else if pyInL "next year".data l then (replaceYear now 1).map some
  else if pyInL "last year".data l then (replaceYear now (-1)).map some
  else
    .ok <| time_patterns.findSome? fun p =>
      match searchL (fun l => matchR p.toks l none) l with
      | some n =>
        let r := if p.addit then qAdd now (mkRat (n * p.mult : ℕ) 1)
                 else qSub now (mkRat (n * p.mult : ℕ) 1)
        if dtInRange r then some r else none
      | none => none

/-- `month_mapping` of `parse_indian_date`, in insertion order. -/
def month_mapping : List (String × ℕ) :=
  [("jan", 1), ("january", 1), ("feb", 2), ("february", 2), ("mar", 3),
   ("march", 3), ("apr", 4), ("april", 4), ("may", 5), ("jun", 6),
   ("june", 6), ("jul", 7), ("july", 7), ("aug", 8), ("august", 8),
   ("sep", 9), ("september", 9), ("oct", 10), ("october", 10), ("nov", 11),
   ("november", 11), ("dec", 12), ("december", 12)]

/-- Month resolution of `parse_indian_date`: exact lookup, then the
three-letter partial match. -/
def lookupMonth (w : String) : Option ℕ :=
  match List.lookup w month_mapping with
  | some m => some m
  | none =>
    month_mapping.findSome? fun p =>
      if List.isPrefixOf (w.data.take 3) p.1.data ||
          List.isPrefixOf (p.1.data.take 3) w.data then
        some p.2
      else none

/-- Position matcher for `(\d{1,2})[^\w]*(\w+)[^\w]*(\d{2,4})`, with full
backtracking over the group-length alternatives. -/
def indianAt (l : List Char) : Option (ℕ × String × ℕ) :=
  [2, 1].findSome? fun k =>
    match digitsPrefix k l with
    | none => none
    | some (dds, r1) =>
      let r2 := r1.dropWhile (fun c => !(pyIsWord c))
      let wrun := r2.takeWhile pyIsWord
      if wrun.isEmpty then none
      else
        (List.range wrun.length).findSome? fun i =>
          let j := wrun.length - i
          let w := wrun.take j
          let r3 := (r2.drop j).dropWhile (fun c => !(pyIsWord c))
          [4, 3, 2].findSome? fun yk =>
            match digitsPrefix yk r3 with
            | some (yds, _) => some (digitsVal dds, (⟨w⟩ : String), digitsVal yds)
            | none => none

/-- `parse_indian_date`. -/
def parse_indian_date (l : List Char) : Option ℚ :=
  match searchL indianAt (l.map Char.toLower) with
  | none => none
  | some (day, monthStr, year0) =>
    match lookupMonth monthStr with
    | none => none
    | some month =>
      let year : ℤ :=
        if year0 < 100 then
          if year0 < 50 then (year0 : ℤ) + 2000 else (year0 : ℤ) + 1900
        else (year0 : ℤ)
      match mkDatetime year month day 0 0 0 with
      | some t => some t
      | none => none

/-- `parse_date`: strip and lowercase, try the fixed formats, then relative
dates, then Indian dates.  The `ValueError` a `next year`/`last year` rewrite
can raise propagates to the caller (`.error`). -/
def parse_date (now : ℚ) (s : String) : Except Unit (Option ℚ) :=
  if s = "" then .ok none
  else
    let l := pyStripL (s.data.map Char.toLower)
    match date_formats.findSome? (fun fmt => strptime fmt l) with
    | some t => .ok (some t)
    | none =>
      match parse_relative_date now l with
      | .error e => .error e
      | .ok (some t) => .ok (some t)
      | .ok none => .ok (parse_indian_date l)

/-- `deadline_keywords` of `extract_deadline_from_text`. -/
def deadline_keywords : List String :=
  ["deadline", "last date", "closing date", "due date", "final date",
   "submission date", "application closes", "before", "by", "until"]

/-- Split on any of the characters (Python `re.split`, keeping empty
pieces). -/
def splitSeps (seps : List Char) : List Char → List (List Char)
  | [] => [[]]
  | c :: t =>
    if seps.contains c then [] :: splitSeps seps t
    else
      match splitSeps seps t with
      | h :: r => (c :: h) :: r
      | [] => [[c]]

/-- The three inner `date_patterns` of `extract_deadline_from_text`, matched
at a position with the character preceding the position supplied so `\b` can
be checked, returning the three captured groups and the rest of the input.
Group quantifiers backtrack through the listed digit-count alternatives;
`\s+` and `\w+` are deterministic (each is followed by a disjoint class). -/
def innerPatAt (prev : Option Char) (l : List Char) :
    Option ((List Char × List Char × List Char) × List Char) :=
  let bOk : Bool := match prev with
    | none => true
    | some c => !(pyIsWord c)
  if !bOk then none
  else
    -- pattern 1: \b(\d{1,2})[/-](\d{1,2})[/-](\d{2,4})\b
    let p1 :=
      [2, 1].findSome? fun k1 =>
        match digitsPrefix k1 l with
        | none => none
        | some (g1, r1) =>
          match r1 with
          | sep1 :: r2 =>
            if sep1 = '/' || sep1 = '-' then
              [2, 1].findSome? fun k2 =>
                match digitsPrefix k2 r2 with
                | none => none
                | some (g2, r3) =>
                  match r3 with
                  | sep2 :: r4 =>
                    if sep2 = '/' || sep2 = '-' then
                      [4, 3, 2].findSome? fun k3 =>
                        match digitsPrefix k3 r4 with
                        | none => none
                        | some (g3, r5) =>
                          match r5 with
                          | [] => some ((g1, g2, g3), r5)
                          | c :: _ => if pyIsWord c then none else some ((g1, g2, g3), r5)
                    else none
                  | [] => none
            else none
          | [] => none
    match p1 with
    | some m => some m
    | none =>
      -- pattern 2: \b(\d{1,2})\s+(\w+)\s+(\d{2,4})\b
      let p2 :=
        [2, 1].findSome? fun k1 =>
          match digitsPrefix k1 l with
          | none => none
          | some (g1, r1) =>
            let ws1 := r1.takeWhile pyIsWs
            if ws1.isEmpty then none
            else
              let r2 := r1.drop ws1.length
              let wrun := r2.takeWhile pyIsWord
              if wrun.isEmpty then none
              else
                let r3 := r2.drop wrun.length
                let ws2 := r3.takeWhile pyIsWs
                if ws2.isEmpty then none
                else
                  let r4 := r3.drop ws2.length
                  [4, 3, 2].findSome? fun k3 =>
                    match digitsPrefix k3 r4 with
                    | none => none
                    | some (g3, r5) =>
                      match r5 with
                      | [] => some ((g1, wrun, g3), r5)
                      | c :: _ => if pyIsWord c then none else some ((g1, wrun, g3), r5)
      match p2 with
      | some m => some m
      | none =>
        -- pattern 3: \b(\w+)\s+(\d{1,2}),?\s+(\d{2,4})\b
        let wrun := l.takeWhile pyIsWord
        if wrun.isEmpty then none
        else
          let r1 := l.drop wrun.length
          let ws1 := r1.takeWhile pyIsWs
          if ws1.isEmpty then none
          else
            let r2 := r1.drop ws1.length
            [2, 1].findSome? fun k2 =>
              match digitsPrefix k2 r2 with
              | none => none
              | some (g2, r3) =>
                let tryTail (r : List Char) :
                    Option ((List Char × List Char × List Char) × List Char) :=
                  let ws2 := r.takeWhile pyIsWs
                  if ws2.isEmpty then none
                  else
                    let r4 := r.drop ws2.length
                    [4, 3, 2].findSome? fun k3 =>
                      match digitsPrefix k3 r4 with
                      | none => none
                      | some (g3, r5) =>
                        match r5 with
                        | [] => some ((wrun, g2, g3), r5)
                        | c :: _ =>
                          if pyIsWord c then none else some ((wrun, g2, g3), r5)
                match r3 with
                | ',' :: r3' =>
                  match tryTail r3' with
                  | some m => some m
                  | none => tryTail r3
                | _ => tryTail r3

/-- `re.findall` over the inner date patterns: non-overlapping matches, left
to right, with `\b` context. -/
def findallInner : ℕ → Option Char → List Char → List (List Char × List Char × List Char)
  | 0, _, _ => []
  | _ + 1, _, [] => []
  | fuel + 1, prev, c :: t =>
    match innerPatAt prev (c :: t) with
    | some (g, rest) => g :: findallInner fuel (some ((c :: t).getD ((c :: t).length - rest.length - 1) c)) rest
    | none => findallInner fuel (some c) t

/-- `extract_deadline_from_text`: lower, split into sentences, keep sentences
containing a deadline keyword, and return the first date parsed from them
(first by `parse_date` on the stripped sentence, then by the inner
patterns). -/
def extract_deadline_from_text (now : ℚ) (s : String) : Except Unit (Option ℚ) :=
  if s = "" then .ok none
  else
    let t := s.data.map Char.toLower
    let sentences := splitSeps ['.', '!', '?', ';'] t
    let dls := (sentences.filter fun sen =>
      deadline_keywords.any fun kw => pyInL kw.data sen).map pyStripL
    go dls
where
  /-- Walk the deadline sentences (the inner-pattern `parse_date` calls are
  inside `try/except`, so their errors are swallowed; the sentence-level
  call is not). -/
  go : List (List Char) → Except Unit (Option ℚ)
  | [] => .ok none
  | sen :: rest =>
    match parse_date now ⟨sen⟩ with
    | .error e => .error e
    | .ok r =>
      match r with
      | some d => .ok (some d)
      | none =>
        let fromPatterns :=
          (findallInner (sen.length + 1) none sen).findSome? fun g =>
            match parse_date now ⟨g.1 ++ ' ' :: g.2.1 ++ ' ' :: g.2.2⟩ with
            | .ok (some d) => some d
            | _ => none
        match fromPatterns with
        | some d => .ok (some d)
        | none => go rest

/-- `is_valid_deadline`: not more than one day in the past, not more than
`365 * 5` days in the future. -/
def is_valid_deadline (now d : ℚ) : Bool :=
  if d < qSub now 1 then false
  else if qAdd now 1825 < d then false
  else true

end DateParsing

/-! ## `difflib.SequenceMatcher` (used by the duplication detector)

Faithful functional rendition of CPython's `SequenceMatcher` with
`isjunk = None`: the `b2j` index map with the autojunk rule, the
`find_longest_match` dynamic program with its extension phases (the junk
phases never fire with an empty junk set), the divide-and-conquer
`get_matching_blocks`, and `ratio`. -/

namespace SeqMatcher

/-- `b2j[c]`: ascending indices of `c` in `b`, with the autojunk rule
(elements occurring more than `len(b) // 100 + 1` times are dropped when
`len(b) ≥ 200`). -/
def b2j (b : List Char) (c : Char) : List ℕ :=
  let idxs := (List.range b.length).filter fun j => b.getD j ' ' == c
  if b.length ≥ 200 && idxs.length > b.length / 100 + 1 then [] else idxs

/-- One row step of the `find_longest_match` dynamic program: given the
previous row `j2len`, the in-range match positions `idxs` for `a[i]`, update
the running best `(besti, bestj, size)`. -/
def flmRow (j2len : ℕ → ℕ) (idxs : List ℕ) (i : ℕ) (best : ℕ × ℕ × ℕ) : ℕ × ℕ × ℕ :=
  idxs.foldl
    (fun bst j =>
      let k := (if j = 0 then 0 else j2len (j - 1)) + 1
      if k > bst.2.2 then (i + 1 - k, j + 1 - k, k) else bst)
    best

/-- The new `j2len` row for position `i`. -/
def flmNewRow (j2len : ℕ → ℕ) (idxs : List ℕ) : ℕ → ℕ :=
  fun j => if idxs.contains j then (if j = 0 then 0 else j2len (j - 1)) + 1 else 0

/-- Backward extension loop of `find_longest_match` (the junk set is empty,
so `not isbjunk(...)` is vacuous). -/
def flmExtendLeft (a b : List Char) (alo blo : ℕ) : ℕ → (ℕ × ℕ × ℕ) → ℕ × ℕ × ℕ
  | 0, best => best
  | fuel + 1, (bi, bj, k) =>
    if alo < bi && blo < bj && (a.getD (bi - 1) ' ' == b.getD (bj - 1) ' ') then
      flmExtendLeft a b alo blo fuel (bi - 1, bj - 1, k + 1)
    else (bi, bj, k)

/-- Forward extension loop of `find_longest_match`. -/
def flmExtendRight (a b : List Char) (ahi bhi : ℕ) : ℕ → (ℕ × ℕ × ℕ) → ℕ × ℕ × ℕ
  | 0, best => best
  | fuel + 1, (bi, bj, k) =>
    if bi + k < ahi && bj + k < bhi && (a.getD (bi + k) ' ' == b.getD (bj + k) ' ') then
      flmExtendRight a b ahi bhi fuel (bi, bj, k + 1)
    else (bi, bj, k)

/-- `find_longest_match(alo, ahi, blo, bhi)`. -/
def findLongestMatch (a b : List Char) (alo ahi blo bhi : ℕ) : ℕ × ℕ × ℕ :=
  let dp := (List.range' alo (ahi - alo)).foldl
    (fun (st : (ℕ → ℕ) × (ℕ × ℕ × ℕ)) i =>
      let idxs := (b2j b (a.getD i ' ')).filter fun j => blo ≤ j && j < bhi
      (flmNewRow st.1 idxs, flmRow st.1 idxs i st.2))
    (fun _ => 0, (alo, blo, 0))
  flmExtendRight a b ahi bhi (ahi + bhi)
    (flmExtendLeft a b alo blo (alo + blo) dp.2)

/-- `get_matching_blocks` without the final adjacent-merge pass (the merge
does not change the total matched length, which is all `ratio` uses);
returns the `(i, j, size)` triples with `size > 0`. -/
def matchingBlocks (a b : List Char) : ℕ → ℕ → ℕ → ℕ → ℕ → List (ℕ × ℕ × ℕ)
  | 0, _, _, _, _ => []
  | fuel + 1, alo, ahi, blo, bhi =>
    let (i, j, k) := findLongestMatch a b alo ahi blo bhi
    if k = 0 then []
    else
      matchingBlocks a b fuel alo i blo j ++
        (i, j, k) :: matchingBlocks a b fuel (i + k) ahi (j + k) bhi

/-- `SequenceMatcher(None, a, b).ratio()` = `2 * M / (len(a) + len(b))`. -/
def ratio (a b : List Char) : ℚ :=
  let m := ((matchingBlocks a b (a.length + b.length + 1) 0 a.length 0 b.length).map
    (fun t => t.2.2)).sum
  if a.length + b.length = 0 then 1 else mkRat (2 * m : ℕ) (a.length + b.length)

end SeqMatcher

/-! ## `app/utils/deduplication.py` — `DuplicationDetector` -/

namespace Dedup

/-- A Python date-bearing field value: an ISO string, a `datetime` object
(rational day count), or a `date` object (integer day count). -/
inductive PyDT
  | str (s : String)
  | dt (t : ℚ)
  | pydate (d : ℤ)
deriving DecidableEq

/-- Truthiness of a deadline field value (`""` and `None` are falsy). -/
def dtTruthy : Option PyDT → Bool
  | none => false
  | some (.str s) => s ≠ ""
  | some (.dt _) => true
  | some (.pydate _) => true

/-- `datetime.fromisoformat` restricted to the `YYYY-MM-DD[*HH:MM:SS]` forms
(the only shapes the pipeline produces; other inputs yield `none`, the
`ValueError` path). -/
def pyFromIso (s : String) : Option ℚ :=
  let l := s.data
  match DateParsing.digitsPrefix 4 l with
  | none => none
  | some (ys, r1) =>
    match r1 with
    | '-' :: r2 =>
      match DateParsing.digitsPrefix 2 r2 with
      | none => none
      | some (ms, r3) =>
        match r3 with
        | '-' :: r4 =>
          match DateParsing.digitsPrefix 2 r4 with
          | none => none
          | some (ds, r5) =>
            match r5 with
            | [] => mkDatetime (digitsVal ys) (digitsVal ms) (digitsVal ds) 0 0 0
            | _ :: r6 =>
              match DateParsing.digitsPrefix 2 r6 with
              | none => none
              | some (hs, r7) =>
                match r7 with
                | ':' :: r8 =>
                  match DateParsing.digitsPrefix 2 r8 with
                  | none => none
                  | some (mins, r9) =>
                    match r9 with
                    | ':' :: r10 =>
                      match DateParsing.digitsPrefix 2 r10 with
                      | some (ss, []) =>
                        mkDatetime (digitsVal ys) (digitsVal ms) (digitsVal ds)
                          (digitsVal hs) (digitsVal mins) (digitsVal ss)
                      | _ => none
                    | _ => none
                | _ => none
        | _ => none
    | _ => none

/-- The scholarship dictionary as the detector reads it (`dict.get` defaults
inlined as field defaults).  `quality_score` is read by the `best` keep
strategy. -/
structure Sch where
  url : String := ""
  title : String := ""
  description : String := ""
  amount : Option ℚ := none
  deadline : Option PyDT := none
  category : String := ""
  eligibility : String := ""
  quality_score : ℚ := 0
deriving DecidableEq

instance : Inhabited Sch := ⟨{}⟩

/-- Truthiness of an amount field (`None` and `0.0` are falsy). -/
def amtTruthy : Option ℚ → Bool
  | none => false
  | some a => a ≠ 0

/-- `DuplicationDetector._init_field_weights`. -/
def field_weights : List (String × ℚ) :=
  [("title", mkRat 3 10), ("url", mkRat 1 4), ("description", mkRat 1 5),
   ("amount", mkRat 1 10), ("deadline", mkRat 1 20), ("category", mkRat 1 20),
   ("eligibility", mkRat 1 20)]

/-- `DuplicationDetector._init_stop_words`. -/
def stop_words : List String :=
  ["the", "and", "or", "but", "in", "on", "at", "to", "for", "of",
   "with", "by", "a", "an", "is", "are", "was", "were", "be", "been",
   "have", "has", "had", "do", "does", "did", "will", "would", "could",
   "should", "may", "might", "must", "can", "shall", "this", "that",
   "these", "those", "scholarship", "award", "grant", "fellowship"]

/-- Split a character list into maximal whitespace-free words. -/
def splitWsWords : ℕ → List Char → List (List Char)
  | 0, _ => []
  | _ + 1, [] => []
  | fuel + 1, c :: t =>
    if pyIsWs c then splitWsWords fuel t
    else
      let w := (c :: t).takeWhile fun x => !(pyIsWs x)
      w :: splitWsWords fuel ((c :: t).drop w.length)

/-- `DuplicationDetector._normalize_text`: lowercase, punctuation to spaces,
whitespace collapsed, stop words removed, re-joined with single spaces. -/
def normalize_text (s : String) : String :=
  if s = "" then ""
  else
    let l := s.data.map Char.toLower
    let l2 := l.map fun c => if pyIsWord c || pyIsWs c then c else ' '
    let words := (splitWsWords (l2.length + 1) l2).filter fun w =>
      !(stop_words.contains (⟨w⟩ : String))
    ⟨(words.intersperse [' ']).flatten⟩

/-- `DuplicationDetector._calculate_text_similarity`. -/
def calculate_text_similarity (t1 t2 : String) : ℚ :=
  if t1 = "" || t2 = "" then 0
  else
    let n1 := normalize_text t1
    let n2 := normalize_text t2
    if n1 = "" || n2 = "" then 0
    else SeqMatcher.ratio n1.data n2.data

/-- Absolute value on `ℚ`, kernel-computable. -/
def qAbs (a : ℚ) : ℚ := if a < 0 then qSub 0 a else a

/-- `DuplicationDetector._compare_amounts` (both arguments truthy floats
here, so the `float(...)`/`if amount else 0` preamble is the identity). -/
def compare_amounts (a1 a2 : ℚ) : ℚ :=
  if a1 = 0 && a2 = 0 then 1
  else if a1 = 0 || a2 = 0 then 0
  else
    let diff := qAbs (qSub a1 a2)
    let avg := qDiv (qAdd a1 a2) 2
    if avg = 0 then 1
    else
      let rel := qDiv diff avg
      let sim := qSub 1 rel
      if sim < 0 then 0 else sim

/-- `DuplicationDetector._compare_dates`: ISO strings are converted with
`fromisoformat` (a failure is the caught `ValueError`, similarity `0.0`);
a value that is not a `datetime` after conversion (a plain `date`) fails the
`isinstance` check and scores `0.0`; otherwise day-distance buckets. -/
def compare_dates (d1 d2 : PyDT) : ℚ :=
  let conv : PyDT → Except Unit (Option ℚ) := fun d =>
    match d with
    | .dt t => .ok (some t)
    | .str s =>
      match pyFromIso s with
      | some t => .ok (some t)
      | none => .error ()
    | .pydate _ => .ok none
  match conv d1, conv d2 with
  | .ok (some t1), .ok (some t2) =>
    let diffDays := (qFloor (qSub t1 t2)).natAbs
    if diffDays ≤ 3 then 1
    else if diffDays ≤ 7 then mkRat 4 5
    else if diffDays ≤ 14 then mkRat 3 5
    else if diffDays ≤ 30 then mkRat 2 5
    else 0
  | _, _ => 0

/-- `DuplicationDetector._normalize_url`: lowercase, parse, strip a leading
`www.`, strip trailing slashes of the path, re-join scheme/netloc/path. -/
def normalize_url (url : String) : String :=
  if url = "" then ""
  else
    let p := pyUrlparse (pyLower url)
    let netloc0 := p.2.1.data
    let netloc := if List.isPrefixOf "www.".data netloc0 then netloc0.drop 4 else netloc0
    let path := (p.2.2.data.reverse.dropWhile (· = '/')).reverse
    ⟨p.1.data ++ "://".data ++ netloc ++ path⟩

/-- Result of `detect_duplication`.  The similarity figures interpolated into
the Python `reasons` strings are elided (the list, not its text, is what the
code exposes). -/
structure DuplicationResult where
  is_duplicate : Bool
  similarity_score : ℚ
  matching_fields : List String
  confidence : ℚ
  reasons : List String
deriving DecidableEq

/-- `DuplicationDetector._calculate_overall_similarity`: weighted average
over the compared fields, weight defaulting to `0.1`. -/
def calculate_overall_similarity (fs : List (String × ℚ)) : ℚ :=
  if fs.isEmpty then 0
  else
    let tw := fs.foldl (fun acc p => qAdd acc (((field_weights.lookup p.1).getD (mkRat 1 10)))) 0
    let wsum := fs.foldl
      (fun acc p => qAdd acc (qMul p.2 ((field_weights.lookup p.1).getD (mkRat 1 10)))) 0
    if tw = 0 then 0 else qDiv wsum tw

/-- `DuplicationDetector._calculate_confidence`. -/
def calculate_confidence (fs : List (String × ℚ)) (matching : List String) : ℚ :=
  if fs.isEmpty then 0
  else
    let coverage := mkRat fs.length 7
    let critical := (["url", "title"].filter fun f => matching.contains f).length
    let bonus := mkRat critical 2
    let conf := qAdd (qMul coverage (mkRat 3 5)) (qMul bonus (mkRat 2 5))
    if (1 : ℚ) < conf then 1 else conf

/-- Default `similarity_threshold` of the detector. -/
def similarity_threshold : ℚ := mkRat 4 5

/-- `DuplicationDetector.detect_duplication` with the default threshold.
The empty-dict guard is modelled by comparison with the all-default record
(`{}` and `{'title': ''}` coincide in this representation; both take the
same non-comparing path to `is_duplicate = False`). -/
def detect_duplication (s1 s2 : Sch) : DuplicationResult :=
  if s1 = {} || s2 = {} then
    ⟨false, 0, [], 0, ["Missing scholarship data"]⟩
  else
    let st0 : List (String × ℚ) × List String × List String := ([], [], [])
    let st1 :=
      if s1.url ≠ "" && s2.url ≠ "" then
        if normalize_url s1.url = normalize_url s2.url then
          (st0.1 ++ [("url", (1 : ℚ))], st0.2.1 ++ ["url"], st0.2.2 ++ ["Exact URL match"])
        else (st0.1 ++ [("url", (0 : ℚ))], st0.2)
      else st0
    let st2 :=
      if s1.title ≠ "" && s2.title ≠ "" then
        let sim := calculate_text_similarity s1.title s2.title
        if mkRat 4 5 < sim then
          (st1.1 ++ [("title", sim)], st1.2.1 ++ ["title"], st1.2.2 ++ ["High title similarity"])
        else (st1.1 ++ [("title", sim)], st1.2)
      else st1
    let st3 :=
      if s1.description ≠ "" && s2.description ≠ "" then
        let sim := calculate_text_similarity s1.description s2.description
        if mkRat 7 10 < sim then
          (st2.1 ++ [("description", sim)], st2.2.1 ++ ["description"],
            st2.2.2 ++ ["High description similarity"])
        else (st2.1 ++ [("description", sim)], st2.2)
      else st2
    let st4 :=
      if amtTruthy s1.amount && amtTruthy s2.amount then
        let sim := compare_amounts (s1.amount.getD 0) (s2.amount.getD 0)
        if mkRat 9 10 < sim then
          (st3.1 ++ [("amount", sim)], st3.2.1 ++ ["amount"], st3.2.2 ++ ["Similar amounts"])
        else (st3.1 ++ [("amount", sim)], st3.2)
      else st3
    let st5 :=
      if dtTruthy s1.deadline && dtTruthy s2.deadline then
        let sim := compare_dates (s1.deadline.getD (.str "")) (s2.deadline.getD (.str ""))
        if mkRat 4 5 < sim then
          (st4.1 ++ [("deadline", sim)], st4.2.1 ++ ["deadline"], st4.2.2 ++ ["Similar deadlines"])
        else (st4.1 ++ [("deadline", sim)], st4.2)
      else st4
    let st6 :=
      if s1.category ≠ "" && s2.category ≠ "" then
        let sim := calculate_text_similarity s1.category s2.category
        if mkRat 7 10 < sim then
          (st5.1 ++ [("category", sim)], st5.2.1 ++ ["category"],
            st5.2.2 ++ ["Similar categories"])
        else (st5.1 ++ [("category", sim)], st5.2)
      else st5
    let st7 :=
      if s1.eligibility ≠ "" && s2.eligibility ≠ "" then
        let sim := calculate_text_similarity s1.eligibility s2.eligibility
        if mkRat 3 5 < sim then
          (st6.1 ++ [("eligibility", sim)], st6.2.1 ++ ["eligibility"],
            st6.2.2 ++ ["Similar eligibility criteria"])
        else (st6.1 ++ [("eligibility", sim)], st6.2)
      else st6
    let overall := calculate_overall_similarity st7.1
    ⟨similarity_threshold ≤ overall, overall, st7.2.1,
      calculate_confidence st7.1 st7.2.1, st7.2.2⟩

/-- `DuplicationDetector.are_duplicates`. -/
def are_duplicates (s1 s2 : Sch) : Bool :=
  (detect_duplication s1 s2).is_duplicate

/-- `DuplicationDetector.find_duplicates_in_batch`: ordered pairs `i < j`
whose comparison is a duplicate, in loop order. -/
def find_duplicates_in_batch (l : List Sch) : List (ℕ × ℕ × DuplicationResult) :=
  (List.range l.length).flatMap fun i =>
    (List.range' (i + 1) (l.length - (i + 1))).filterMap fun j =>
      let r := detect_duplication (l.getD i default) (l.getD j default)
      if r.is_duplicate then some (i, j, r) else none

/-- State of the grouping loop of `get_duplicate_groups`: the mutable
`groups` list and the `index_to_group` map. -/
structure GState where
  groups : List (List ℕ)
  idx : ℕ → Option ℕ

/-- One iteration of the grouping loop, for the pair `(i, j)`. -/
def groupStep (st : GState) (p : ℕ × ℕ) : GState :=
  let i := p.1
  let j := p.2
  match st.idx i, st.idx j with
  | none, none =>
    { groups := st.groups ++ [[i, j]],
      idx := fun x => if x = i || x = j then some st.groups.length else st.idx x }
  | some gi, none =>
    { groups := st.groups.set gi (st.groups.getD gi [] ++ [j]),
      idx := fun x => if x = j then some gi else st.idx x }
  | none, some gj =>
    { groups := st.groups.set gj (st.groups.getD gj [] ++ [i]),
      idx := fun x => if x = i then some gj else st.idx x }
  | some gi, some gj =>
    if gi ≠ gj then
      let merged := st.groups.getD gj []
      { groups := (st.groups.set gi (st.groups.getD gi [] ++ merged)).set gj [],
        idx := fun x => if merged.contains x then some gi else st.idx x }
    else st

/-- Proof-support predicate: the pair `p` is co-located in some group of the
state. -/
def pairMem (st : GState) (p : ℕ × ℕ) : Prop :=
  ∃ k, k < st.groups.length ∧ p.1 ∈ st.groups.getD k [] ∧ p.2 ∈ st.groups.getD k []

/-- Proof-support invariant: `index_to_group` points each mapped index into
a group that contains it. -/
def idxInv (st : GState) : Prop :=
  ∀ x g, st.idx x = some g → g < st.groups.length ∧ x ∈ st.groups.getD g []

/-- `DuplicationDetector.get_duplicate_groups`. -/
def get_duplicate_groups (l : List Sch) : List (List ℕ) :=
  let pairs := (find_duplicates_in_batch l).map fun t => (t.1, t.2.1)
  let final := pairs.foldl groupStep ⟨[], fun _ => none⟩
  final.groups.filter fun g => !g.isEmpty

/-- One `for group in duplicate_groups` iteration of
`deduplicate_scholarships`: extend the indices-to-remove accumulator
according to the keep strategy. -/
def removeStep (l : List Sch) (keep_strategy : String) (acc : List ℕ)
    (g : List ℕ) : List ℕ :=
  if g.length ≤ 1 then acc
  else if keep_strategy = "first" then acc ++ g.drop 1
  else if keep_strategy = "last" then acc ++ g.dropLast
  else if keep_strategy = "best" then
    match g with
    | [] => acc
    | g0 :: gt =>
      let best := gt.foldl
        (fun (b : ℕ × ℚ) idx =>
          let sc := (l.getD idx default).quality_score
          if b.2 < sc then (idx, sc) else b)
        (g0, (l.getD g0 default).quality_score)
      acc ++ g.filter fun idx => idx ≠ best.1
  else acc

/-- `DuplicationDetector.deduplicate_scholarships`. -/
def deduplicate_scholarships (l : List Sch) (keep_strategy : String := "first") :
    List Sch :=
  if l.isEmpty then []
  else
    let removed : List ℕ :=
      (get_duplicate_groups l).foldl (removeStep l keep_strategy) []
    (l.enum.filter fun p => !(removed.contains p.1)).map Prod.snd

/-- Two records with the same URL (up to normalization) but amounts so far
apart that the amount similarity is `0`. -/
def sameUrlA : Sch := { url := "http://example.com/a", amount := some 100 }

/-- See `sameUrlA`. -/
def sameUrlB : Sch := { url := "http://Example.com/a/", amount := some 1000000 }

end Dedup

/-! ## `app/services/validation_service.py` — `LinkValidationService` -/

namespace Validation

/-- `LinkStatus`. -/
inductive LinkStatus
  | valid | invalid | broken | suspicious | redirect | slow | blocked
deriving DecidableEq, Repr

/-- The observable outcome of `session.get(url)`: response time is the wall
clock the code measures, supplied by the environment. -/
structure HttpResponse where
  status : ℕ
  response_time : ℚ
  final_url : String
  content : String
  content_type : String
  content_length : ℤ
deriving DecidableEq

/-- The network interaction of one `validate_url` call: a response, or one of
the exception classes the code handles (`aiohttp.ClientError`,
`asyncio.TimeoutError`, or any other `Exception` reaching the outer handler),
each carrying the elapsed wall-clock seconds. -/
inductive FetchOutcome
  | response (r : HttpResponse)
  | clientError (msg : String) (elapsed : ℚ)
  | timeout (elapsed : ℚ)
  | otherError (msg : String) (elapsed : ℚ)
deriving DecidableEq

/-- `ValidationResult` (metadata and timestamp fields omitted: the claims
never read them). -/
structure VResult where
  url : String
  status : LinkStatus
  response_code : ℕ
  response_time : ℚ
  final_url : String
  content_type : String
  content_length : ℤ
  quality_score : ℚ
  issues : List String
deriving DecidableEq

/-- `trusted_domains` of the service. -/
def trusted_domains : List String :=
  ["scholarships.gov.in", "nsp.gov.in", "ugc.ac.in", "aicte-india.org",
   "dst.gov.in", "csir.res.in", "icmr.gov.in", "dbt.gov.in", "icar.org.in",
   "indianrailways.gov.in", "pfms.nic.in", "aiims.edu", "iit.ac.in",
   "iisc.ac.in", "bits-pilani.ac.in", "gov.in", "nic.in", "edu"]

/-- `suspicious_patterns`: every pattern is a literal string (dots escaped in
the source), so the searches are substring tests. -/
def suspicious_patterns : List String :=
  ["bit.ly", "tinyurl.com", "goo.gl", "t.co", "shorturl.at", "click.here",
   "download.now", "free.money", "guaranteed.scholarship", "100%.scholarship",
   "no.application.fee", "instant.approval"]

/-- Case-insensitive substring test (`re.search(pat, s, re.IGNORECASE)` for a
literal pattern, and `kw.lower() in s.lower()`). -/
def pyInCI (sub s : String) : Bool :=
  pyInL (sub.data.map Char.toLower) (s.data.map Char.toLower)

/-- `LinkValidationService._get_domain_trust_score`.  (`urlparse` cannot
raise here, so the `except` branch returning 30.0 is unreachable.) -/
def get_domain_trust_score (url : String) : ℚ :=
  let domain := pyLower (pyUrlparse url).2.1
  if trusted_domains.contains domain then 100
  else if trusted_domains.any (fun t => (("." ++ t) : String).data.isSuffixOf domain.data) then 95
  else if ".gov.in".data.isSuffixOf domain.data || ".gov".data.isSuffixOf domain.data then 90
  else if ".edu".data.isSuffixOf domain.data || ".ac.in".data.isSuffixOf domain.data then 85
  else if ".org".data.isSuffixOf domain.data then 75
  else if ".com".data.isSuffixOf domain.data || ".in".data.isSuffixOf domain.data then 60
  else 40

/-- `scholarship_keywords` of `_get_content_quality_score`. -/
def scholarship_keywords : List String :=
  ["scholarship", "fellowship", "grant", "financial aid", "education",
   "student", "application", "eligibility", "criteria", "deadline"]

/-- `process_keywords`. -/
def process_keywords : List String :=
  ["apply", "application form", "submit", "documents", "requirements",
   "how to apply", "selection process", "merit", "interview"]

/-- `spam_keywords`. -/
def spam_keywords : List String :=
  ["click here", "act now", "limited time", "guaranteed", "instant",
   "free money", "no fee", "easy money", "work from home"]

/-- `LinkValidationService._get_content_quality_score` (all the arithmetic is
on whole numbers; the final value is clamped to [0, 100]). -/
def get_content_quality_score (content : String) : ℤ :=
  if content = "" then 0
  else
    let kw := (scholarship_keywords.filter fun k => pyInCI k content).length
    let proc := (process_keywords.filter fun k => pyInCI k content).length
    let spam := (spam_keywords.filter fun k => pyInCI k content).length
    let s1 : ℤ := 50 + min 30 (kw * 3 : ℕ) + min 20 (proc * 2 : ℕ) - min 40 (spam * 10 : ℕ)
    let s2 : ℤ := s1 + (if 1000 < content.length then 10
                        else if 500 < content.length then 5 else 0)
    min 100 (max 0 s2)

/-- `promotional_words` of `_is_suspicious_content`. -/
def promotional_words : List String :=
  ["guaranteed", "instant", "free money", "no fee", "easy money"]

/-- `LinkValidationService._is_suspicious_content`. -/
def is_suspicious_content (content : String) : Bool :=
  if content = "" then true
  else if 3 < (promotional_words.filter fun w => pyInCI w content).length then true
  else if content.length < 200 then true
  else false

/-- `LinkValidationService._determine_status`. -/
def determine_status (status_code : ℕ) (response_time : ℚ) (_final_url : String)
    (content : String) : LinkStatus :=
  if 400 ≤ status_code then .broken
  else if (10 : ℚ) < response_time then .slow
  else if is_suspicious_content content then .suspicious
  else if [301, 302, 303, 307, 308].contains status_code then .redirect
  else .valid

/-- HTTP-status penalty step of `_calculate_quality_score`. -/
def statusPenalty (status_code : ℕ) (s : ℚ) : ℚ :=
  if 400 ≤ status_code then qMul s 0
  else if 300 ≤ status_code then qMul s (mkRat 4 5)
  else s

/-- Response-time penalty step. -/
def timePenalty (response_time : ℚ) (s : ℚ) : ℚ :=
  if (10 : ℚ) < response_time then qMul s (mkRat 1 2)
  else if (5 : ℚ) < response_time then qMul s (mkRat 4 5)
  else s

/-- Content-type bonus step. -/
def ctypeBonus (content_type : String) (s : ℚ) : ℚ :=
  if pyIn "text/html" content_type then qMul s (mkRat 11 10)
  else if pyIn "application/pdf" content_type then qMul s (mkRat 21 20)
  else s

/-- Redirect penalty step. -/
def redirectPenalty (original_url final_url : String) (s : ℚ) : ℚ :=
  if original_url ≠ final_url then qMul s (mkRat 9 10) else s

/-- `LinkValidationService._calculate_quality_score`: the successive
reassignments of the Python `score` variable, composed in statement order,
clamped to [0, 100]. -/
def calculate_quality_score (original_url final_url content content_type : String)
    (status_code : ℕ) (response_time : ℚ) : ℚ :=
  let s5 := redirectPenalty original_url final_url
    (ctypeBonus content_type
      (qMul (timePenalty response_time
          (statusPenalty status_code
            (qMul 100 (qDiv (get_domain_trust_score final_url) 100))))
        (qDiv (mkRat (get_content_quality_score content) 1) 100)))
  if (100 : ℚ) < s5 then 100 else if s5 < 0 then 0 else s5

/-- `suspicious_content` patterns of `_check_content_quality`. -/
def suspicious_content_patterns : List String :=
  ["click here to download", "guaranteed scholarship", "no application fee",
   "instant approval", "limited time offer"]

/-- `LinkValidationService._check_content_quality` (the interpolated pattern
text of each issue string is elided). -/
def check_content_quality (content : String) : List String :=
  if content = "" then ["Empty content"]
  else
    (if content.length < 100 then ["Very short content"] else []) ++
    (suspicious_content_patterns.filter fun p => pyInCI p content).map
      (fun _ => "Suspicious content") ++
    (if !pyInCI "eligibility" content then ["Missing eligibility criteria"] else []) ++
    (if !pyInCI "deadline" content && !pyInCI "last date" content then
      ["Missing deadline information"] else [])

/-- `LinkValidationService.validate_url`: the syntactic check, the
suspicious-pattern issues, then the fetch, with every handled exception
turned into a terminal result object (the function is total: no failure mode
reaches the caller as an exception). -/
def validate_url (url : String) (outcome : FetchOutcome) : VResult :=
  let parsed := pyUrlparse url
  if parsed.1 = "" || parsed.2.1 = "" then
    { url := url, status := .invalid, response_code := 0, response_time := 0,
      final_url := url, content_type := "", content_length := 0,
      quality_score := 0, issues := ["Invalid URL format"] }
  else
    let issues0 := (suspicious_patterns.filter fun p => pyInCI p url).map
      fun _ => "Suspicious pattern detected"
    match outcome with
    | .response r =>
      let status := determine_status r.status r.response_time r.final_url r.content
      let q := calculate_quality_score url r.final_url r.content r.content_type
        r.status r.response_time
      let issues := issues0 ++
        (if 400 ≤ r.status then ["HTTP error"] else []) ++
        (if (10 : ℚ) < r.response_time then ["Slow response time"] else []) ++
        (if r.final_url ≠ url then ["URL redirected"] else []) ++
        check_content_quality r.content
      { url := url, status := status, response_code := r.status,
        response_time := r.response_time, final_url := r.final_url,
        content_type := r.content_type, content_length := r.content_length,
        quality_score := q, issues := issues }
    | .clientError _ elapsed =>
      { url := url, status := .broken, response_code := 0, response_time := elapsed,
        final_url := url, content_type := "", content_length := 0,
        quality_score := 0, issues := ["Connection error"] }
    | .timeout elapsed =>
      { url := url, status := .slow, response_code := 0, response_time := elapsed,
        final_url := url, content_type := "", content_length := 0,
        quality_score := 0, issues := ["Request timeout"] }
    | .otherError _ elapsed =>
      { url := url, status := .invalid, response_code := 0, response_time := elapsed,
        final_url := url, content_type := "", content_length := 0,
        quality_score := 0, issues := ["Validation error"] }

end Validation

/-! ## `app/services/scraping_service.py` — `ScrapingService` -/

namespace Scraping

/-- Decimal digit character. -/
def digitChar (n : ℕ) : Char := Char.ofNat ('0'.toNat + n)

/-- Decimal digits of a natural number. -/
def natDigits : ℕ → ℕ → List Char
  | 0, _ => []
  | fuel + 1, n =>
    if n < 10 then [digitChar n]
    else natDigits fuel (n / 10) ++ [digitChar (n % 10)]

/-- Zero-padded numeric field of width `w`. -/
def padNum (w n : ℕ) : List Char :=
  let ds := natDigits (n + 1) n
  List.replicate (w - ds.length) '0' ++ ds

/-- `date.isoformat()` of a day count. -/
def isoDate (d : ℤ) : String :=
  let c := civilFromDays d
  ⟨padNum 4 c.1.toNat ++ '-' :: padNum 2 c.2.1 ++ '-' :: padNum 2 c.2.2⟩

/-- `isoformat()` of a date-like value (`datetime` values append the time;
only the `date` case is reachable in the cleaning gate). -/
def pyIsoformat : Dedup.PyDT → String
  | .pydate d => isoDate d
  | .dt t =>
    let days := qFloor t
    let secs := (qFloor (qMul (qSub t (mkRat days 1)) 86400)).toNat
    isoDate days ++ "T" ++
      ⟨padNum 2 (secs / 3600) ++ ':' :: padNum 2 (secs / 60 % 60) ++ ':' :: padNum 2 (secs % 60)⟩
  | .str s => s

/-- `html.unescape` restricted to the five common named entities and decimal
numeric references (the full HTML5 entity table is out of scope; the gate is
evaluated only on inputs without `&`). -/
def pyUnescape : ℕ → List Char → List Char
  | 0, l => l
  | _ + 1, [] => []
  | fuel + 1, '&' :: t =>
    if List.isPrefixOf "amp;".data t then '&' :: pyUnescape fuel (t.drop 4)
    else if List.isPrefixOf "lt;".data t then '<' :: pyUnescape fuel (t.drop 3)
    else if List.isPrefixOf "gt;".data t then '>' :: pyUnescape fuel (t.drop 3)
    else if List.isPrefixOf "quot;".data t then '"' :: pyUnescape fuel (t.drop 5)
    else if List.isPrefixOf "apos;".data t then Char.ofNat 39 :: pyUnescape fuel (t.drop 5)
    else if List.isPrefixOf "#".data t then
      let ds := (t.drop 1).takeWhile Char.isDigit
      match (t.drop 1).drop ds.length with
      | ';' :: rest =>
        if ds.isEmpty || 1114111 < digitsVal ds then '&' :: pyUnescape fuel t
        else Char.ofNat (digitsVal ds) :: pyUnescape fuel rest
      | _ => '&' :: pyUnescape fuel t
    else '&' :: pyUnescape fuel t
  | fuel + 1, c :: t => c :: pyUnescape fuel t

/-- Collapse whitespace runs to single spaces (`re.sub(r'\s+', ' ', …)`). -/
def collapseWs : ℕ → List Char → List Char
  | 0, l => l
  | _ + 1, [] => []
  | fuel + 1, c :: t =>
    if pyIsWs c then ' ' :: collapseWs fuel ((c :: t).dropWhile pyIsWs)
    else c :: collapseWs fuel t

/-- `app/utils/text_processing.py` `clean_text`: entity unescape, NFKD
normalization (the identity on the ASCII inputs considered here), whitespace
collapse, strip. -/
def clean_text (s : String) : String :=
  if s = "" then ""
  else
    let l1 := pyUnescape (s.data.length + 1) s.data
    ⟨pyStripL (collapseWs (l1.length + 1) l1)⟩

/-- Python `float(str)` restricted to optionally signed decimal literals
without exponent (the shapes the scraper produces). -/
def pyFloat (s : String) : Option ℚ :=
  let l := pyStripL s.data
  let signRest : ℤ × List Char :=
    match l with
    | '+' :: t => (1, t)
    | '-' :: t => (-1, t)
    | _ => (1, l)
  let l2 := signRest.2
  let ip := l2.takeWhile Char.isDigit
  let r := l2.drop ip.length
  match r with
  | [] => if ip.isEmpty then none else some (qMul (mkRat signRest.1 1) (mkRat (digitsVal ip) 1))
  | '.' :: fr =>
    let fp := fr.takeWhile Char.isDigit
    if (fr.drop fp.length).isEmpty && !(ip.isEmpty && fp.isEmpty) then
      some (qMul (mkRat signRest.1 1) (decimalVal ip fp))
    else none
  | _ => none

/-- `urljoin(f"https://{source_name}", rel)` for a base URL with an empty
path (dot-segment resolution is not needed for such bases). -/
def pyUrljoinBase (host rel : String) : String :=
  if (pyUrlparse rel).1 ≠ "" then rel
  else if List.isPrefixOf "//".data rel.data then "https:" ++ rel
  else if List.isPrefixOf "/".data rel.data then "https://" ++ host ++ rel
  else "https://" ++ host ++ "/" ++ rel

/-- The fields of the `ScrapedScholarship` dataclass read by
`_calculate_quality_score` (the remaining fields never enter the score). -/
structure ScrapedScholarship where
  title : String := ""
  description : String := ""
  amount : Option ℚ := none
  deadline : Option String := none
  eligibility : List String := []
  application_url : String := ""
deriving DecidableEq

/-- In `_calculate_quality_score` and `_clean_and_validate_data` the source
calls the async `LinkValidator.validate_url` without `await`: the call
returns a coroutine object, which is truthy, so the check always passes. -/
def validate_url_unawaited (_url : String) : Bool := true

/-- Title component of `_calculate_quality_score` (0–20 per the comment;
10 is the floor the `else` awards). -/
def titleScore (s : ScrapedScholarship) : ℕ :=
  if s.title ≠ "" && 10 < s.title.length then 20
  else if s.title ≠ "" && 5 < s.title.length then 15
  else 10

/-- Description component. -/
def descScore (s : ScrapedScholarship) : ℕ :=
  if s.description ≠ "" && 200 < s.description.length then 20
  else if s.description ≠ "" && 100 < s.description.length then 15
  else if s.description ≠ "" && 50 < s.description.length then 10
  else 5

/-- Application-URL component (the unawaited `validate_url` coroutine is
truthy, see `validate_url_unawaited`). -/
def urlScore (s : ScrapedScholarship) : ℕ :=
  if s.application_url ≠ "" && validate_url_unawaited s.application_url then 20
  else 5

/-- Deadline component: `datetime.fromisoformat` inside `try`, `+15` for a
strictly future date, `+5` otherwise or on any failure. -/
def deadlineScore (today : ℤ) (s : ScrapedScholarship) : ℕ :=
  match s.deadline with
  | some ds =>
    if ds ≠ "" then
      match Dedup.pyFromIso ds with
      | some dt => if today < qFloor dt then 15 else 5
      | none => 5
    else 5
  | none => 5

/-- Amount component. -/
def amountScore (s : ScrapedScholarship) : ℕ :=
  match s.amount with
  | some q => if q ≠ 0 && 0 < q then 15 else 5
  | none => 5

/-- Eligibility component. -/
def eligScore (s : ScrapedScholarship) : ℕ :=
  if !s.eligibility.isEmpty then 10 else 3

/-- `ScrapingService._calculate_quality_score` (`today` is
`datetime.now().date()`). -/
def calculate_quality_score (today : ℤ) (s : ScrapedScholarship) : ℕ :=
  min (titleScore s + descScore s + urlScore s + deadlineScore today s +
    amountScore s + eligScore s) 100

/-- `category_keywords` of `_extract_category`, in insertion order. -/
def category_keywords : List (String × List String) :=
  [("merit", ["merit", "toppers", "academic excellence", "outstanding"]),
   ("need-based", ["need based", "financial aid", "economically weaker", "poor"]),
   ("minority", ["minority", "muslim", "christian", "sikh", "buddhist", "jain"]),
   ("women", ["women", "girl", "female", "lady", "mother"]),
   ("disabled", ["disabled", "handicapped", "divyang", "differently abled"]),
   ("sc", ["sc", "scheduled caste", "dalit"]),
   ("st", ["st", "scheduled tribe", "tribal"]),
   ("obc", ["obc", "other backward class", "backward"]),
   ("sports", ["sports", "athlete", "games", "physical education"]),
   ("arts", ["arts", "cultural", "music", "dance", "painting"]),
   ("science", ["science", "research", "scientific", "innovation"]),
   ("technology", ["technology", "technical", "engineering", "it"]),
   ("medical", ["medical", "medicine", "healthcare", "doctor", "nurse"]),
   ("engineering", ["engineering", "engineer", "technical"]),
   ("law", ["law", "legal", "advocate", "lawyer"]),
   ("management", ["management", "mba", "business", "commerce"]),
   ("agriculture", ["agriculture", "farming", "agricultural"]),
   ("international", ["international", "foreign", "abroad", "overseas"])]

/-- `ScrapingService._extract_category`. -/
def extract_category (title description : String) : String :=
  let text := pyLower (title ++ " " ++ description)
  (category_keywords.findSome? fun p =>
    if p.2.any (fun kw => pyIn kw text) then some p.1 else none).getD "general"

/-- `level_keywords` of `_extract_education_level`. -/
def level_keywords : List (String × List String) :=
  [("pre-matric", ["pre matric", "class 9", "class 10", "9th", "10th"]),
   ("post-matric", ["post matric", "class 11", "class 12", "11th", "12th"]),
   ("graduation", ["graduation", "bachelor", "ba", "bsc", "bcom", "be", "btech", "undergraduate"]),
   ("post-graduation", ["post graduation", "masters", "ma", "msc", "mcom", "mba", "mtech", "postgraduate"]),
   ("doctorate", ["doctorate", "phd", "doctoral", "research"]),
   ("diploma", ["diploma", "polytechnic"]),
   ("certificate", ["certificate", "certification"]),
   ("professional", ["professional", "ca", "cs", "cma", "medical", "law"]),
   ("vocational", ["vocational", "skill", "training", "iti"])]

/-- `ScrapingService._extract_education_level`. -/
def extract_education_level (title description : String) (eligibility : List String) :
    String :=
  let text := pyLower (title ++ " " ++ description ++ " " ++
    ⟨((eligibility.map String.data).intersperse [' ']).flatten⟩)
  (level_keywords.findSome? fun p =>
    if p.2.any (fun kw => pyIn kw text) then some p.1 else none).getD "all-levels"

/-- `settings.INDIAN_STATES` (`app/core/config.py`). -/
def INDIAN_STATES : List String :=
  ["Andhra Pradesh", "Arunachal Pradesh", "Assam", "Bihar", "Chhattisgarh",
   "Goa", "Gujarat", "Haryana", "Himachal Pradesh", "Jharkhand", "Karnataka",
   "Kerala", "Madhya Pradesh", "Maharashtra", "Manipur", "Meghalaya", "Mizoram",
   "Nagaland", "Odisha", "Punjab", "Rajasthan", "Sikkim", "Tamil Nadu",
   "Telangana", "Tripura", "Uttar Pradesh", "Uttarakhand", "West Bengal",
   "Andaman and Nicobar Islands", "Chandigarh",
   "Dadra and Nagar Haveli and Daman and Diu", "Delhi", "Jammu and Kashmir",
   "Ladakh", "Lakshadweep", "Puducherry"]

/-- `state_abbr` of `_extract_state`, in insertion order. -/
def state_abbr : List (String × String) :=
  [("up", "Uttar Pradesh"), ("mp", "Madhya Pradesh"), ("hp", "Himachal Pradesh"),
   ("ap", "Andhra Pradesh"), ("tn", "Tamil Nadu"), ("wb", "West Bengal"),
   ("rj", "Rajasthan"), ("gj", "Gujarat"), ("mh", "Maharashtra"),
   ("ka", "Karnataka"), ("kl", "Kerala"), ("od", "Odisha"), ("as", "Assam"),
   ("jh", "Jharkhand"), ("ch", "Chhattisgarh"), ("hr", "Haryana"),
   ("pb", "Punjab"), ("br", "Bihar"), ("uk", "Uttarakhand"), ("ga", "Goa"),
   ("sk", "Sikkim"), ("mn", "Manipur"), ("mg", "Meghalaya"), ("mz", "Mizoram"),
   ("nl", "Nagaland"), ("tr", "Tripura"), ("ar", "Arunachal Pradesh")]

/-- `ScrapingService._extract_state`. -/
def extract_state (title description : String) (eligibility : List String) : String :=
  let text := pyLower (title ++ " " ++ description ++ " " ++
    ⟨((eligibility.map String.data).intersperse [' ']).flatten⟩)
  match INDIAN_STATES.findSome? fun st =>
      if pyIn (pyLower st) text then some st else none with
  | some st => st
  | none =>
    (state_abbr.findSome? fun p =>
      if pyIn p.1 text then some p.2 else none).getD "All India"

/-- Tag keyword list of `_generate_tags`. -/
def tag_keywords : List String :=
  ["scholarship", "fellowship", "grant", "award", "stipend",
   "merit", "need", "minority", "women", "disabled", "sports",
   "arts", "science", "technology", "medical", "engineering",
   "government", "private", "international", "research"]

/-- Institution types of `_generate_tags`. -/
def institution_types : List String :=
  ["university", "college", "school", "institute", "iit", "nit", "iiit", "aiims"]

/-- `ScrapingService._generate_tags`: matched keywords then matched
institution types; the final `list(set(tags))` is modelled as duplicate
removal in first-occurrence order (CPython's set iteration order for strings
is unspecified, and nothing downstream reads the order). -/
def generate_tags (title description : String) (eligibility : List String) :
    List String :=
  let text := pyLower (title ++ " " ++ description ++ " " ++
    ⟨((eligibility.map String.data).intersperse [' ']).flatten⟩)
  ((tag_keywords.filter fun kw => pyIn kw text) ++
    (institution_types.filter fun kw => pyIn kw text)).eraseDups

/-- An extracted `amount` field: a number or a string (strings go through
`float(...)`). -/
inductive AmtVal
  | num (q : ℚ)
  | str (s : String)
deriving DecidableEq

/-- An extracted `eligibility` field: a string or a list of strings. -/
inductive EligVal
  | str (s : String)
  | list (l : List String)
deriving DecidableEq

/-- The raw dictionary `_clean_and_validate_data` receives (absent keys are
the `dict.get` defaults). -/
structure RawData where
  title : String := ""
  description : String := ""
  amount : Option AmtVal := none
  deadline : Option Dedup.PyDT := none
  application_url : String := ""
  eligibility : EligVal := .list []
  provider : String := ""
  contact_email : Option String := none
  contact_phone : Option String := none
  application_process : String := ""
  benefits : List String := []
  selection_criteria : List String := []
  required_documents : List String := []
deriving DecidableEq

/-- The cleaned dictionary `_clean_and_validate_data` returns. -/
structure CleanedData where
  title : String
  description : String
  amount : Option ℚ
  deadline : Option String
  eligibility : List String
  application_url : String
  category : String
  level : String
  state : String
  provider : String
  contact_email : Option String
  contact_phone : Option String
  application_process : String
  benefits : List String
  selection_criteria : List String
  required_documents : List String
  tags : List String
deriving DecidableEq

/-- Outcome of the deadline block of the gate: reject the record, or continue
with the (possibly nulled) deadline value. -/
inductive DeadOutcome
  | reject
  | keep (d : Option Dedup.PyDT)
deriving DecidableEq

/-- The deadline block of `_clean_and_validate_data`.  For a string deadline
the source parses it with `parse_date`, obtaining a `datetime`, and then
evaluates `deadline < datetime.now().date()` — a `datetime`/`date` comparison,
which raises `TypeError`; the surrounding `except` then nulls the deadline, so
a string deadline can never trigger the `return None` rejection.  Only a value
that is already a `date` reaches the comparison without raising. -/
def deadlineStep (today : ℤ) (nowDT : ℚ) (dl : Option Dedup.PyDT) : DeadOutcome :=
  if Dedup.dtTruthy dl then
    match dl.getD (.str "") with
    | .str s =>
      match DateParsing.parse_date nowDT s with
      | .error _ => .keep none      -- parse raised; caught, deadline = None
      | .ok none => .keep none      -- parsed to None; comparison short-circuits
      | .ok (some _) => .keep none  -- datetime < date raises TypeError; caught
    | .dt _ => .keep none           -- datetime < date raises TypeError; caught
    | .pydate d => if d < today then .reject else .keep (some (.pydate d))
  else .keep dl

/-- `ScrapingService._clean_and_validate_data` (`today` is
`datetime.now().date()`, `nowDT` the clock `parse_date` reads). -/
def clean_and_validate_data (today : ℤ) (nowDT : ℚ) (data : RawData)
    (source_name : String) : Option CleanedData :=
  let title0 := pyStrip data.title
  if title0 = "" || title0.length < 10 then none
  else
    let desc0 := pyStrip data.description
    if desc0 = "" || desc0.length < 20 then none
    else
      let amount : Option ℚ :=
        match data.amount with
        | none => none
        | some (.num q) => if q ≤ 0 then none else some q
        | some (.str s) =>
          match pyFloat s with
          | some q => if q ≤ 0 then none else some q
          | none => none
      match deadlineStep today nowDT data.deadline with
      | .reject => none
      | .keep deadline =>
        let app0 := pyStrip data.application_url
        let application_url :=
          if app0 ≠ "" then
            if !(List.isPrefixOf "http://".data app0.data ||
                List.isPrefixOf "https://".data app0.data) then
              pyUrljoinBase source_name app0
            else app0
          else app0
        -- `if not self.link_validator.validate_url(...)`: the unawaited
        -- coroutine is truthy, so the URL is never cleared.
        let application_url :=
          if app0 ≠ "" && !validate_url_unawaited application_url then ""
          else application_url
        let elig0 := match data.eligibility with
          | .str s => [s]
          | .list l => l
        let eligibility := (elig0.map pyStrip).filter (· ≠ "")
        let title := clean_text title0
        let description := clean_text desc0
        some { title := title,
               description := description,
               amount := amount,
               deadline := match deadline with
                 | some v => if Dedup.dtTruthy (some v) then some (pyIsoformat v) else none
                 | none => none,
               eligibility := eligibility,
               application_url := application_url,
               category := extract_category title description,
               level := extract_education_level title description eligibility,
               state := extract_state title description eligibility,
               provider := data.provider,
               contact_email := data.contact_email,
               contact_phone := data.contact_phone,
               application_process := data.application_process,
               benefits := data.benefits,
               selection_criteria := data.selection_criteria,
               required_documents := data.required_documents,
               tags := generate_tags title description eligibility }

/-- A sample raw record whose string deadline `"2020-01-01"` denotes a date
far in the past (used to exercise the deadline block of the gate). -/
def pastDeadlineSample : RawData :=
  { title := "National Merit Test Award",
    description := "A monetary award for meritorious students of all streams.",
    deadline := some (.str "2020-01-01") }

/-- A reference "today" for the concrete evaluations: 2025-10-12. -/
def sampleToday : ℤ := daysFromCivil 2025 10 12

/-! ### Pagination of `scrape_scholarships` -/

/-- The parts of a source configuration the pagination loop reads. -/
structure PageConfig where
  pagination_enabled : Bool := false
  max_pages_config : Option ℕ := none
  has_next_selector : Bool := false

/-- The `while current_page < min(max_pages, max_pages_config)` loop of
`scrape_scholarships`, counting the per-page extraction calls it performs:
`remaining` is `bound - current_page`, and `nextExists page` tells whether
`query_selector` finds a next-page button on the given (1-based) page. -/
def pageLoop (nextExists : ℕ → Bool) (hasSelector : Bool) : ℕ → ℕ → ℕ
  | 0, _ => 0
  | remaining + 1, current =>
    if !hasSelector then 0
    else if !nextExists current then 0
    else 1 + pageLoop nextExists hasSelector remaining (current + 1)

/-- Number of `_extract_scholarships_from_page` calls a
`scrape_scholarships` run performs: one for the landing page, plus the
paginating loop when the source config enables pagination. -/
def scrape_extraction_calls (cfg : PageConfig) (max_pages : ℕ)
    (nextExists : ℕ → Bool) : ℕ :=
  1 +
    if cfg.pagination_enabled then
      let bound := min max_pages (cfg.max_pages_config.getD max_pages)
      pageLoop nextExists cfg.has_next_selector (bound - 1) 1
    else 0

end Scraping

/-! ## Supporting lemmas -/

theorem qden_ne (a : ℚ) : (a.den : ℚ) ≠ 0 :=
  Nat.cast_ne_zero.mpr (Rat.den_pos a).ne'

theorem qnum_eq (a : ℚ) : (a.num : ℚ) = a * a.den :=
  (div_eq_iff (qden_ne a)).mp (Rat.num_div_den a)

theorem qAdd_eq (a b : ℚ) : qAdd a b = a + b := by
  rw [qAdd, Rat.mkRat_eq_div]
  push_cast
  rw [qnum_eq a, qnum_eq b, div_eq_iff (mul_ne_zero (qden_ne a) (qden_ne b))]
  ring

theorem qSub_eq (a b : ℚ) : qSub a b = a - b := by
  rw [qSub, Rat.mkRat_eq_div]
  push_cast
  rw [qnum_eq a, qnum_eq b, div_eq_iff (mul_ne_zero (qden_ne a) (qden_ne b))]
  ring

theorem qMul_eq (a b : ℚ) : qMul a b = a * b := by
  rw [qMul, Rat.mkRat_eq_div]
  push_cast
  rw [qnum_eq a, qnum_eq b, div_eq_iff (mul_ne_zero (qden_ne a) (qden_ne b))]
  ring

theorem qDiv_eq (a b : ℚ) : qDiv a b = a / b := by
  rcases eq_or_ne b 0 with rfl | hb
  · simp [qDiv]
  · have hbn : (b.num : ℚ) ≠ 0 := by
      exact_mod_cast Rat.num_ne_zero.mpr hb
    rw [qDiv, Rat.divInt_eq_div]
    push_cast
    rw [qnum_eq a, qnum_eq b,
      div_eq_div_iff (mul_ne_zero (mul_ne_zero hb (qden_ne b)) (qden_ne a)) hb]
    ring


theorem ivd_iff (now d : ℚ) :
    DateParsing.is_valid_deadline now d = true ↔ now - 1 ≤ d ∧ d ≤ now + 1825 := by
  unfold DateParsing.is_valid_deadline
  rw [qSub_eq, qAdd_eq]
  split_ifs with h1 h2
  · simp only [Bool.false_eq_true, false_iff, not_and]
    intro ha _
    linarith
  · simp only [Bool.false_eq_true, false_iff, not_and]
    intro _
    linarith
  · simp only [true_iff]
    exact ⟨not_lt.mp h1, not_lt.mp h2⟩

theorem quality_score_bounds (today : ℤ) (s : Scraping.ScrapedScholarship) :
    33 ≤ Scraping.calculate_quality_score today s ∧
      Scraping.calculate_quality_score today s ≤ 100 := by
  have ht : 10 ≤ Scraping.titleScore s := by
    unfold Scraping.titleScore
    split_ifs <;> omega
  have ht' : Scraping.titleScore s ≤ 20 := by
    unfold Scraping.titleScore
    split_ifs <;> omega
  have hd : 5 ≤ Scraping.descScore s ∧ Scraping.descScore s ≤ 20 := by
    unfold Scraping.descScore
    split_ifs <;> omega
  have hu : 5 ≤ Scraping.urlScore s ∧ Scraping.urlScore s ≤ 20 := by
    unfold Scraping.urlScore
    split_ifs <;> omega
  have hdl : 5 ≤ Scraping.deadlineScore today s ∧ Scraping.deadlineScore today s ≤ 15 := by
    unfold Scraping.deadlineScore
    rcases s.deadline with _ | ds
    · dsimp only
      omega
    · dsimp only
      rcases Dedup.pyFromIso ds with _ | t <;> dsimp only <;> split_ifs <;> omega
  have ha : 5 ≤ Scraping.amountScore s ∧ Scraping.amountScore s ≤ 15 := by
    unfold Scraping.amountScore
    rcases s.amount with _ | q
    · dsimp only
      omega
    · dsimp only
      split_ifs <;> omega
  have he : 3 ≤ Scraping.eligScore s ∧ Scraping.eligScore s ≤ 10 := by
    unfold Scraping.eligScore
    split_ifs <;> omega
  refine ⟨?_, Nat.min_le_right _ _⟩
  unfold Scraping.calculate_quality_score
  rw [Nat.le_min]
  omega

theorem qMul_zero (a : ℚ) : qMul a 0 = 0 := by rw [qMul_eq, mul_zero]

theorem zero_qMul (a : ℚ) : qMul 0 a = 0 := by rw [qMul_eq, zero_mul]

theorem statusPenalty_broken {c : ℕ} (hc : 400 ≤ c) (s : ℚ) :
    Validation.statusPenalty c s = 0 := by
  unfold Validation.statusPenalty
  rw [if_pos hc, qMul_zero]

theorem timePenalty_zero (t : ℚ) : Validation.timePenalty t 0 = 0 := by
  unfold Validation.timePenalty
  split_ifs <;> simp [zero_qMul]

theorem ctypeBonus_zero (ct : String) : Validation.ctypeBonus ct 0 = 0 := by
  unfold Validation.ctypeBonus
  split_ifs <;> simp [zero_qMul]

theorem redirectPenalty_zero (a b : String) : Validation.redirectPenalty a b 0 = 0 := by
  unfold Validation.redirectPenalty
  split_ifs <;> simp [zero_qMul]

/-! ### Lemmas for the idempotence of deduplication (C7) -/

namespace Dedup

theorem getD_set_self (l : List (List ℕ)) (i : ℕ) (v : List ℕ) (h : i < l.length) :
    (l.set i v).getD i [] = v := by
  rw [List.getD_eq_getElem _ _ (by simpa using h)]
  simp

theorem getD_set_ne (l : List (List ℕ)) {i j : ℕ} (v : List ℕ) (h : i ≠ j) :
    (l.set i v).getD j [] = l.getD j [] := by
  by_cases hj : j < l.length
  · rw [List.getD_eq_getElem _ _ (by simpa using hj), List.getD_eq_getElem _ _ hj]
    exact List.getElem_set_ne h _
  · rw [List.getD_eq_default _ _ (by simpa using not_lt.mp hj),
      List.getD_eq_default _ _ (not_lt.mp hj)]

theorem getD_append_self (l : List (List ℕ)) (v : List ℕ) :
    (l ++ [v]).getD l.length [] = v := by
  rw [List.getD_append_right l [v] [] l.length le_rfl]
  simp

theorem getD_append_lt (l : List (List ℕ)) (v : List ℕ) {k : ℕ} (h : k < l.length) :
    (l ++ [v]).getD k [] = l.getD k [] :=
  List.getD_append _ _ _ _ h

/-- `groupStep` preserves the `index_to_group` invariant. -/
theorem groupStep_idxInv {st : GState} (h : idxInv st) (p : ℕ × ℕ) :
    idxInv (groupStep st p) := by
  obtain ⟨G, idx⟩ := st
  unfold groupStep
  dsimp only
  rcases hi : idx p.1 with _ | gi <;> rcases hj : idx p.2 with _ | gj <;>
    simp only [hi, hj]
  · -- new group appended
    intro x g hx
    dsimp only at hx ⊢
    by_cases hxij : (x = p.1 || x = p.2) = true
    · rw [if_pos hxij] at hx
      injection hx with hg
      subst hg
      refine ⟨by simp, ?_⟩
      rw [getD_append_self]
      rcases Bool.or_eq_true_iff.mp hxij with h1 | h1 <;>
        simp [of_decide_eq_true h1]
    · rw [if_neg hxij] at hx
      obtain ⟨h1, h2⟩ := h x g hx
      exact ⟨by simp [Nat.lt_succ_of_lt, h1], by rwa [getD_append_lt _ _ h1]⟩
  · -- i unmapped, j mapped: extend group gj with i
    obtain ⟨hgj, hjmem⟩ := h p.2 gj hj
    intro x g hx
    dsimp only at hx ⊢
    by_cases hxi : x = p.1
    · rw [if_pos (by simpa using hxi)] at hx
      injection hx with hg
      subst hg
      refine ⟨by simpa using hgj, ?_⟩
      rw [getD_set_self _ _ _ hgj]
      exact List.mem_append_right _ (by simp [hxi])
    · rw [if_neg (by simpa using hxi)] at hx
      obtain ⟨h1, h2⟩ := h x g hx
      refine ⟨by simpa using h1, ?_⟩
      by_cases hgg : gj = g
      · subst hgg
        rw [getD_set_self _ _ _ hgj]
        exact List.mem_append_left _ h2
      · rwa [getD_set_ne _ _ hgg]
  · -- i mapped, j unmapped: extend group gi with j
    obtain ⟨hgi, himem⟩ := h p.1 gi hi
    intro x g hx
    dsimp only at hx ⊢
    by_cases hxj : x = p.2
    · rw [if_pos (by simpa using hxj)] at hx
      injection hx with hg
      subst hg
      refine ⟨by simpa using hgi, ?_⟩
      rw [getD_set_self _ _ _ hgi]
      exact List.mem_append_right _ (by simp [hxj])
    · rw [if_neg (by simpa using hxj)] at hx
      obtain ⟨h1, h2⟩ := h x g hx
      refine ⟨by simpa using h1, ?_⟩
      by_cases hgg : gi = g
      · subst hgg
        rw [getD_set_self _ _ _ hgi]
        exact List.mem_append_left _ h2
      · rwa [getD_set_ne _ _ hgg]
  · -- both mapped: merge (or skip when equal)
    obtain ⟨hgi, himem⟩ := h p.1 gi hi
    obtain ⟨hgj, hjmem⟩ := h p.2 gj hj
    by_cases hne : gi ≠ gj
    · rw [if_pos hne]
      intro x g hx
      dsimp only at hx ⊢
      by_cases hxm : (G.getD gj []).contains x = true
      · rw [if_pos hxm] at hx
        injection hx with hg
        subst hg
        refine ⟨by simpa using hgi, ?_⟩
        rw [getD_set_ne _ _ (Ne.symm hne), getD_set_self _ _ _ hgi]
        exact List.mem_append_right _ (List.elem_iff.mp hxm)
      · rw [if_neg hxm] at hx
        obtain ⟨h1, h2⟩ := h x g hx
        refine ⟨by simpa using h1, ?_⟩
        by_cases hggj : g = gj
        · subst hggj
          exact absurd (List.elem_iff.mpr h2) hxm
        · rw [getD_set_ne _ _ (fun e => hggj e.symm)]
          by_cases hggi : gi = g
          · subst hggi
            rw [getD_set_self _ _ _ hgi]
            exact List.mem_append_left _ h2
          · rwa [getD_set_ne _ _ hggi]
    · rw [if_neg hne]
      exact h

/-- `groupStep` never separates a pair that is already co-located. -/
theorem groupStep_pairMem {st : GState} (hinv : idxInv st) (q : ℕ × ℕ) {p : ℕ × ℕ}
    (hp : pairMem st p) : pairMem (groupStep st q) p := by
  obtain ⟨G, idx⟩ := st
  obtain ⟨k, hk, h1, h2⟩ := hp
  dsimp only at hk h1 h2
  unfold groupStep
  dsimp only
  rcases hi : idx q.1 with _ | gi <;> rcases hj : idx q.2 with _ | gj <;>
    simp only [hi, hj]
  · exact ⟨k, by simpa using Nat.lt_succ_of_lt hk,
      by rwa [getD_append_lt _ _ hk], by rwa [getD_append_lt _ _ hk]⟩
  · obtain ⟨hgj, _⟩ := hinv q.2 gj hj
    refine ⟨k, by simpa using hk, ?_, ?_⟩ <;>
      · by_cases hgg : gj = k
        · subst hgg
          rw [getD_set_self _ _ _ hgj]
          first
            | exact List.mem_append_left _ h1
            | exact List.mem_append_left _ h2
        · rw [getD_set_ne _ _ hgg]
          assumption
  · obtain ⟨hgi, _⟩ := hinv q.1 gi hi
    refine ⟨k, by simpa using hk, ?_, ?_⟩ <;>
      · by_cases hgg : gi = k
        · subst hgg
          rw [getD_set_self _ _ _ hgi]
          first
            | exact List.mem_append_left _ h1
            | exact List.mem_append_left _ h2
        · rw [getD_set_ne _ _ hgg]
          assumption
  · obtain ⟨hgi, _⟩ := hinv q.1 gi hi
    obtain ⟨hgj, _⟩ := hinv q.2 gj hj
    by_cases hne : gi ≠ gj
    · rw [if_pos hne]
      by_cases hkj : k = gj
      · subst hkj
        refine ⟨gi, by simpa using hgi, ?_, ?_⟩ <;>
          · rw [getD_set_ne _ _ (Ne.symm hne), getD_set_self _ _ _ hgi]
            first
              | exact List.mem_append_right _ h1
              | exact List.mem_append_right _ h2
      · refine ⟨k, by simpa using hk, ?_, ?_⟩ <;>
          · rw [getD_set_ne _ _ (fun e => hkj e.symm)]
            by_cases hki : gi = k
            · subst hki
              rw [getD_set_self _ _ _ hgi]
              first
                | exact List.mem_append_left _ h1
                | exact List.mem_append_left _ h2
            · rw [getD_set_ne _ _ hki]
              assumption
    · rw [if_neg hne]
      exact ⟨k, hk, h1, h2⟩

/-- After its own step, a pair is co-located. -/
theorem groupStep_self {st : GState} (hinv : idxInv st) (p : ℕ × ℕ) :
    pairMem (groupStep st p) p := by
  obtain ⟨G, idx⟩ := st
  unfold groupStep
  dsimp only
  rcases hi : idx p.1 with _ | gi <;> rcases hj : idx p.2 with _ | gj <;>
    simp only [hi, hj]
  · exact ⟨G.length, by simp, by rw [getD_append_self]; simp,
      by rw [getD_append_self]; simp⟩
  · obtain ⟨hgj, hjmem⟩ := hinv p.2 gj hj
    refine ⟨gj, by simpa using hgj, ?_, ?_⟩ <;> rw [getD_set_self _ _ _ hgj]
    · simp
    · exact List.mem_append_left _ hjmem
  · obtain ⟨hgi, himem⟩ := hinv p.1 gi hi
    refine ⟨gi, by simpa using hgi, ?_, ?_⟩ <;> rw [getD_set_self _ _ _ hgi]
    · exact List.mem_append_left _ himem
    · simp
  · obtain ⟨hgi, himem⟩ := hinv p.1 gi hi
    obtain ⟨hgj, hjmem⟩ := hinv p.2 gj hj
    by_cases hne : gi ≠ gj
    · rw [if_pos hne]
      refine ⟨gi, by simpa using hgi, ?_, ?_⟩ <;>
        rw [getD_set_ne _ _ (Ne.symm hne), getD_set_self _ _ _ hgi]
      · exact List.mem_append_left _ himem
      · exact List.mem_append_right _ hjmem
    · rw [if_neg hne]
      rw [not_ne_iff] at hne
      subst hne
      exact ⟨gi, hgi, himem, hjmem⟩

/-- Co-location survives the whole grouping fold. -/
theorem foldl_pairMem_pres (pairs : List (ℕ × ℕ)) {st : GState} (hinv : idxInv st)
    {p : ℕ × ℕ} (hp : pairMem st p) :
    pairMem (pairs.foldl groupStep st) p := by
  induction pairs generalizing st with
  | nil => exact hp
  | cons q rest ih =>
    exact ih (groupStep_idxInv hinv q) (groupStep_pairMem hinv q hp)

/-- The invariant survives the whole grouping fold. -/
theorem foldl_idxInv (pairs : List (ℕ × ℕ)) {st : GState} (hinv : idxInv st) :
    idxInv (pairs.foldl groupStep st) := by
  induction pairs generalizing st with
  | nil => exact hinv
  | cons q rest ih => exact ih (groupStep_idxInv hinv q)

/-- Every processed pair ends co-located. -/
theorem foldl_all_pairs (pairs : List (ℕ × ℕ)) {st : GState} (hinv : idxInv st) :
    ∀ p ∈ pairs, pairMem (pairs.foldl groupStep st) p := by
  induction pairs generalizing st with
  | nil => intro p hp; cases hp
  | cons q rest ih =>
    intro p hp
    rcases List.mem_cons.mp hp with rfl | hp
    · exact foldl_pairMem_pres rest (groupStep_idxInv hinv p)
        (groupStep_self hinv p)
    · exact ih (groupStep_idxInv hinv q) p hp

/-- Any detected duplicate pair is co-located in some final duplicate
group. -/
theorem dup_pair_in_groups {l : List Sch} {i j : ℕ}
    (hmem : (i, j) ∈ (find_duplicates_in_batch l).map (fun t => (t.1, t.2.1))) :
    ∃ g ∈ get_duplicate_groups l, i ∈ g ∧ j ∈ g := by
  unfold get_duplicate_groups
  have hinv0 : idxInv ⟨[], fun _ => none⟩ := fun x g hx => Option.noConfusion hx
  obtain ⟨k, hk, h1, h2⟩ := foldl_all_pairs _ hinv0 (i, j) hmem
  set final := ((find_duplicates_in_batch l).map fun t => (t.1, t.2.1)).foldl
    groupStep ⟨[], fun _ => none⟩ with hfinal
  refine ⟨final.groups.getD k [], List.mem_filter.mpr ⟨?_, ?_⟩, h1, h2⟩
  · rw [List.getD_eq_getElem _ _ hk]
    exact List.getElem_mem hk
  · rcases he : final.groups.getD k [] with _ | ⟨a, t⟩
    · rw [he] at h1
      cases h1
    · simp

/-- A duplicate comparison at positions `i < j` puts `(i, j)` among the
detected pairs. -/
theorem mem_dup_pairs {l : List Sch} {i j : ℕ} (hij : i < j) (hjl : j < l.length)
    (hd : (detect_duplication (l.getD i default) (l.getD j default)).is_duplicate
      = true) :
    (i, j) ∈ (find_duplicates_in_batch l).map (fun t => (t.1, t.2.1)) := by
  refine List.mem_map.mpr
    ⟨(i, j, detect_duplication (l.getD i default) (l.getD j default)),
      List.mem_flatMap.mpr ⟨i, List.mem_range.mpr (lt_trans hij hjl), ?_⟩, rfl⟩
  refine List.mem_filterMap.mpr ⟨j, List.mem_range'_1.mpr ⟨hij, ?_⟩, ?_⟩
  · omega
  · rw [if_pos hd]

theorem removeStep_first (l : List Sch) (acc : List ℕ) (g : List ℕ) :
    removeStep l "first" acc g = if g.length ≤ 1 then acc else acc ++ g.drop 1 := by
  simp [removeStep]

/-- The removal fold only grows the accumulator. -/
theorem mem_removed_mono (groups : List (List ℕ)) (l : List Sch) (acc : List ℕ)
    {x : ℕ} (hx : x ∈ acc) : x ∈ groups.foldl (removeStep l "first") acc := by
  induction groups generalizing acc with
  | nil => exact hx
  | cons g t ih =>
    apply ih
    rw [removeStep_first]
    split_ifs
    · exact hx
    · exact List.mem_append_left _ hx

/-- With the `first` strategy, everything after the head of a non-singleton
group is removed. -/
theorem tail_mem_removed (groups : List (List ℕ)) (l : List Sch) (acc : List ℕ)
    {g : List ℕ} (hg : g ∈ groups) (hlen : ¬ g.length ≤ 1) {x : ℕ}
    (hx : x ∈ g.drop 1) : x ∈ groups.foldl (removeStep l "first") acc := by
  induction groups generalizing acc with
  | nil => cases hg
  | cons g0 t ih =>
    simp only [List.foldl_cons]
    rcases List.mem_cons.mp hg with rfl | hg'
    · apply mem_removed_mono
      rw [removeStep_first, if_neg hlen]
      exact List.mem_append_right _ hx
    · exact ih _ hg'

/-- A member of a non-singleton duplicate group that escaped removal is the
group's head. -/
theorem not_removed_eq_head {l : List Sch} {g : List ℕ}
    (hg : g ∈ get_duplicate_groups l) (hlen : 1 < g.length) {x : ℕ} (hx : x ∈ g)
    (hnr : x ∉ (get_duplicate_groups l).foldl (removeStep l "first") []) :
    x = g.headD 0 := by
  rcases g with _ | ⟨h0, t⟩
  · cases hx
  · rcases List.mem_cons.mp hx with rfl | hx'
    · rfl
    · exact absurd (tail_mem_removed _ l [] hg (by omega) (by simpa using hx')) hnr

/-- The records kept by `deduplicate_scholarships l "first"` are pairwise
non-duplicates. -/
theorem kept_pairwise (l : List Sch) :
    List.Pairwise (fun x y => (detect_duplication x y).is_duplicate = false)
      ((l.enum.filter fun p =>
        !(((get_duplicate_groups l).foldl (removeStep l "first") []).contains p.1)).map
          Prod.snd) := by
  rw [List.pairwise_map]
  have base : List.Pairwise
      (fun p q : ℕ × Sch =>
        ¬ ((get_duplicate_groups l).foldl (removeStep l "first") []).contains p.1 = true →
        ¬ ((get_duplicate_groups l).foldl (removeStep l "first") []).contains q.1 = true →
        (detect_duplication p.2 q.2).is_duplicate = false) l.enum := by
    rw [List.pairwise_iff_get]
    intro a b hab
    intro hra hrb
    by_contra hdup
    rw [Bool.not_eq_false] at hdup
    have hlen : l.enum.length = l.length := List.enum_length
    have hea : l.enum.get a = (a.1, l.getD a.1 default) := by
      rw [List.get_eq_getElem, List.getElem_enum, List.getD_eq_getElem _ _ (by omega)]
    have heb : l.enum.get b = (b.1, l.getD b.1 default) := by
      rw [List.get_eq_getElem, List.getElem_enum, List.getD_eq_getElem _ _ (by omega)]
    rw [hea] at hra hdup
    rw [heb] at hrb hdup
    dsimp only at hra hrb hdup
    obtain ⟨g, hgmem, hia, hib⟩ :=
      dup_pair_in_groups (mem_dup_pairs (by exact_mod_cast hab) (by omega) hdup)
    have hne : a.1 ≠ b.1 := by
      have : (a : ℕ) < b := hab
      omega
    have hglen : 1 < g.length := by
      rcases g with _ | ⟨h0, t⟩
      · cases hia
      · rcases t with _ | ⟨h1, t'⟩
        · have e1 := List.mem_singleton.mp hia
          have e2 := List.mem_singleton.mp hib
          exact absurd (e1.trans e2.symm) hne
        · simp only [List.length_cons]
          omega
    have ha := not_removed_eq_head hgmem hglen hia (fun hmem => hra (List.elem_iff.mpr hmem))
    have hb := not_removed_eq_head hgmem hglen hib (fun hmem => hrb (List.elem_iff.mpr hmem))
    exact hne (ha.trans hb.symm)
  refine List.Pairwise.imp_of_mem ?_ (List.Pairwise.filter _ base)
  intro a b ha hb ht
  have ha' := List.of_mem_filter ha
  have hb' := List.of_mem_filter hb
  exact ht (by simpa using ha') (by simpa using hb')

/-- A pairwise non-duplicate list produces no duplicate pairs. -/
theorem no_dups_of_pairwise {m : List Sch}
    (h : List.Pairwise (fun x y => (detect_duplication x y).is_duplicate = false) m) :
    find_duplicates_in_batch m = [] := by
  rw [List.eq_nil_iff_forall_not_mem]
  intro t ht
  unfold find_duplicates_in_batch at ht
  obtain ⟨i, hi, ht2⟩ := List.mem_flatMap.mp ht
  obtain ⟨j, hj, ht3⟩ := List.mem_filterMap.mp ht2
  rw [List.mem_range] at hi
  rw [List.mem_range'_1] at hj
  have hij : i < j := by omega
  have hjm : j < m.length := by omega
  have hfalse := List.pairwise_iff_get.mp h ⟨i, by omega⟩ ⟨j, hjm⟩ (by exact_mod_cast hij)
  rw [List.get_eq_getElem, List.get_eq_getElem] at hfalse
  rw [← List.getD_eq_getElem m default (by omega : i < m.length),
    ← List.getD_eq_getElem m default hjm] at hfalse
  dsimp only at ht3
  rw [hfalse] at ht3
  simp at ht3

/-- No duplicate pairs means no duplicate groups. -/
theorem groups_nil {m : List Sch} (h : find_duplicates_in_batch m = []) :
    get_duplicate_groups m = [] := by
  unfold get_duplicate_groups
  rw [h]
  rfl

end Dedup

/-! ## Claim theorems -/

/-- C1 (counterexample): contrary to the claim, `parse_amount` does not
return the maximum of the bounds for `"5 lakh to 10 lakh"`: the result is not
`1000000.0`. -/
theorem parse_amount_range_claim_false :
    AmountParser.parse_amount "5 lakh to 10 lakh" ≠ some 1000000 := by decide

/-- C1 (amended): `parse_amount "₹2,50,000" = 250000.0`; but
`"5 lakh to 10 lakh"` is captured by the earlier numeric-with-suffix strategy
as `5 lakh = 500000.0` (the range strategy, tried last, does not even match
that text); a plain-digit range `"5000 to 10000"` is captured by the
plain-numeric fallback as `5000.0` before the range strategy is tried; and
`_parse_range_amount` itself returns the second bound of the range, whatever
its size. -/
theorem parse_amount_examples :
    AmountParser.parse_amount "₹2,50,000" = some 250000 ∧
    AmountParser.parse_amount "5 lakh to 10 lakh" = some 500000 ∧
    AmountParser.parse_range_amount "5 lakh to 10 lakh".data = none ∧
    AmountParser.parse_amount "5000 to 10000" = some 5000 ∧
    AmountParser.parse_range_amount "5000 to 10000".data = some 10000 ∧
    AmountParser.parse_range_amount "10000 to 500".data = some 500 := by decide

/-- C2 (code bug): a record whose deadline field is the string
`"2020-01-01"` — which `parse_date` resolves to 2020-01-01, strictly before
the current date 2025-10-12 — is *not* rejected by
`_clean_and_validate_data`: the `datetime < date` comparison raises
`TypeError`, the handler nulls the deadline, and the record is accepted with
`deadline = None`.  A deadline that is already a `date` object *is*
rejected, which is the behaviour the claim describes. -/
theorem clean_gate_accepts_past_string_deadline :
    DateParsing.parse_date (mkRat Scraping.sampleToday 1) "2020-01-01" =
      .ok (some (mkRat (daysFromCivil 2020 1 1) 1)) ∧
    daysFromCivil 2020 1 1 < Scraping.sampleToday ∧
    (Scraping.clean_and_validate_data Scraping.sampleToday (mkRat Scraping.sampleToday 1)
      Scraping.pastDeadlineSample "example.org").isSome = true ∧
    (Scraping.clean_and_validate_data Scraping.sampleToday (mkRat Scraping.sampleToday 1)
      Scraping.pastDeadlineSample "example.org").map (fun c => c.deadline) = some none ∧
    Scraping.clean_and_validate_data Scraping.sampleToday (mkRat Scraping.sampleToday 1)
      { Scraping.pastDeadlineSample with deadline := some (.pydate (daysFromCivil 2020 1 1)) }
      "example.org" = none := by decide

/-- C3 (counterexample): two records with identical normalized URLs whose
amounts differ wildly are *not* reported as duplicates: the URL similarity
`1.0` (weight `0.25`) is averaged with the amount similarity `0.0`
(weight `0.1`), giving `5/7 < 0.8`. -/
theorem same_url_not_always_duplicate :
    Dedup.sameUrlA.url ≠ "" ∧ Dedup.sameUrlB.url ≠ "" ∧
    Dedup.normalize_url Dedup.sameUrlA.url = Dedup.normalize_url Dedup.sameUrlB.url ∧
    (Dedup.detect_duplication Dedup.sameUrlA Dedup.sameUrlB).is_duplicate = false ∧
    (Dedup.detect_duplication Dedup.sameUrlA Dedup.sameUrlB).similarity_score =
      mkRat 5 7 := by decide

/-- C3 (amended): when both records carry a URL and the URLs agree after
normalization, the URL field scores `1.0` and is reported in
`matching_fields`; `is_duplicate = True` is guaranteed when no other field is
present on both records (the weighted average is then `1.0 ≥ 0.8`), but not
in general. -/
theorem same_url_only_records_duplicate (u1 u2 : String) (h1 : u1 ≠ "") (h2 : u2 ≠ "")
    (h : Dedup.normalize_url u1 = Dedup.normalize_url u2) :
    (Dedup.detect_duplication { url := u1 } { url := u2 }).is_duplicate = true ∧
    (Dedup.detect_duplication { url := u1 } { url := u2 }).matching_fields = ["url"] ∧
    (Dedup.detect_duplication { url := u1 } { url := u2 }).similarity_score = 1 := by
  unfold Dedup.detect_duplication
  simp only [Dedup.Sch.mk.injEq, h1, h2, h]
  norm_num [Dedup.amtTruthy, Dedup.dtTruthy]
  rw [if_pos (show ¬u1 = "" ∧ ¬u2 = "" from ⟨h1, h2⟩)]
  decide

/-- C3 (amended, witness). -/
theorem same_url_only_records_duplicate_witness :
    (Dedup.detect_duplication { url := "http://a.gov.in/s" }
      { url := "http://a.gov.in/s/" }).is_duplicate = true :=
  (same_url_only_records_duplicate "http://a.gov.in/s" "http://a.gov.in/s/"
    (by decide) (by decide) (by decide)).1

/-- C4 (counterexample): `extract_deadline_from_text` applies no
plausibility window: on `"Deadline: 15 August 1990"` it returns 1990-08-15 —
a date `is_valid_deadline` rejects as more than one day in the past — instead
of treating it as unparsed (`None`). -/
theorem extract_deadline_ignores_window :
    DateParsing.extract_deadline_from_text (mkRat Scraping.sampleToday 1)
      "Deadline: 15 August 1990" = .ok (some (mkRat (daysFromCivil 1990 8 15) 1)) ∧
    DateParsing.is_valid_deadline (mkRat Scraping.sampleToday 1)
      (mkRat (daysFromCivil 1990 8 15) 1) = false := by decide

/-- C4 (amended): `is_valid_deadline` accepts exactly the dates not more than
1 day in the past and not more than `5 × 365` days in the future; but
`extract_deadline_from_text` never applies this check and returns
out-of-window dates as parsed values. -/
theorem deadline_window_semantics :
    (∀ now d : ℚ, DateParsing.is_valid_deadline now d = true ↔
      now - 1 ≤ d ∧ d ≤ now + 1825) ∧
    DateParsing.extract_deadline_from_text (mkRat Scraping.sampleToday 1)
      "Deadline: 15 August 1990" = .ok (some (mkRat (daysFromCivil 1990 8 15) 1)) ∧
    DateParsing.is_valid_deadline (mkRat Scraping.sampleToday 1)
      (mkRat (daysFromCivil 1990 8 15) 1) = false :=
  ⟨ivd_iff, by decide, by decide⟩

/-- C5: when the fetch yields a response with HTTP status ≥ 400 (404 in
particular), `validate_url` returns status `broken` with quality score
exactly `0.0`; the handled network failure modes (client error, timeout)
likewise produce terminal result objects — `broken` with score `0.0`, and
`slow` — rather than exceptions.  (`validate_url` is a total function of the
fetch outcome: every failure mode the code catches is a constructor of
`Validation.FetchOutcome`.) -/
theorem broken_link_result (url : String) (r : Validation.HttpResponse)
    (msg : String) (e1 e2 : ℚ)
    (hs : (pyUrlparse url).1 ≠ "") (hn : (pyUrlparse url).2.1 ≠ "")
    (hc : 400 ≤ r.status) :
    (Validation.validate_url url (.response r)).status = .broken ∧
    (Validation.validate_url url (.response r)).quality_score = 0 ∧
    (Validation.validate_url url (.clientError msg e1)).status = .broken ∧
    (Validation.validate_url url (.clientError msg e1)).quality_score = 0 ∧
    (Validation.validate_url url (.timeout e2)).status = .slow := by
  have hq : Validation.calculate_quality_score url r.final_url r.content
      r.content_type r.status r.response_time = 0 := by
    simp only [Validation.calculate_quality_score, statusPenalty_broken hc,
      timePenalty_zero, zero_qMul, ctypeBonus_zero, redirectPenalty_zero]
    norm_num
  have hst : Validation.determine_status r.status r.response_time r.final_url
      r.content = .broken := by
    unfold Validation.determine_status
    rw [if_pos hc]
  unfold Validation.validate_url
  simp only [hs, hn]
  rw [if_neg (by simp [hs, hn])]
  exact ⟨hst, hq, rfl, rfl, rfl⟩

/-- C5 (witness). -/
theorem broken_link_result_witness :
    (Validation.validate_url "http://example.com/x"
      (.response { status := 404, response_time := 1, final_url := "http://example.com/x",
                   content := "not found", content_type := "text/html",
                   content_length := 9 })).status = Validation.LinkStatus.broken ∧
    (Validation.validate_url "http://example.com/x"
      (.response { status := 404, response_time := 1, final_url := "http://example.com/x",
                   content := "not found", content_type := "text/html",
                   content_length := 9 })).quality_score = 0 :=
  ⟨(broken_link_result "http://example.com/x" _ "err" 0 0 (by decide) (by decide)
      (by decide)).1,
   (broken_link_result "http://example.com/x" _ "err" 0 0 (by decide) (by decide)
      (by decide)).2.1⟩

/-- C6: a record whose stripped title is shorter than 10 characters, or whose
stripped description is shorter than 20 characters, is rejected by
`_clean_and_validate_data` (the gate returns `None`). -/
theorem short_fields_rejected (today : ℤ) (nowDT : ℚ) (data : Scraping.RawData)
    (src : String)
    (h : (pyStrip data.title).length < 10 ∨ (pyStrip data.description).length < 20) :
    Scraping.clean_and_validate_data today nowDT data src = none := by
  rcases h with h | h
  · simp [Scraping.clean_and_validate_data, h]
  · simp only [Scraping.clean_and_validate_data]
    by_cases h1 : (decide (pyStrip data.title = "") ||
        decide ((pyStrip data.title).length < 10)) = true
    · rw [if_pos h1]
    · rw [if_neg h1, if_pos (by simp [h])]

/-- C6 (witness). -/
theorem short_fields_rejected_witness :
    Scraping.clean_and_validate_data 0 0
      { title := "Too short", description := "A sufficiently long description." }
      "example.org" = none :=
  short_fields_rejected 0 0 _ "example.org" (Or.inl (by decide))

/-- C7: deduplication is idempotent — after `deduplicate_scholarships`
(default `first` keep strategy) retains one representative per duplicate
group, re-running `get_duplicate_groups` on the kept records finds no
duplicate pair, hence no (multi-element) group at all. -/
theorem dedup_idempotent (l : List Dedup.Sch) :
    Dedup.get_duplicate_groups (Dedup.deduplicate_scholarships l "first") = [] := by
  unfold Dedup.deduplicate_scholarships
  by_cases hl : l.isEmpty
  · rw [if_pos (by simpa using hl)]
    exact Dedup.groups_nil rfl
  · rw [if_neg (by simpa using hl)]
    exact Dedup.groups_nil (Dedup.no_dups_of_pairwise (Dedup.kept_pairwise l))

/-- C8: with pagination enabled, a configured `max_pages = 3`, a next-page
selector, five available pages, and any caller-supplied `max_pages` argument
of at least 3 (the default is 10), `scrape_scholarships` performs exactly 3
per-page extraction calls. -/
theorem max_pages_bounds_extraction (max_pages : ℕ) (h : 3 ≤ max_pages) :
    Scraping.scrape_extraction_calls
      { pagination_enabled := true, max_pages_config := some 3, has_next_selector := true }
      max_pages (fun p => decide (p < 5)) = 3 := by
  unfold Scraping.scrape_extraction_calls
  simp only [Option.getD]
  rw [Nat.min_eq_right h]
  decide

/-- C8 (witness): the default `max_pages = 10`. -/
theorem max_pages_bounds_extraction_witness :
    Scraping.scrape_extraction_calls
      { pagination_enabled := true, max_pages_config := some 3, has_next_selector := true }
      10 (fun p => decide (p < 5)) = 3 :=
  max_pages_bounds_extraction 10 (by decide)

/-- C9 (counterexample): `validate_amount` is not `(True, [])` for every
`0 < a ≤ 5×10⁷`: the amount `50` lies in that range but is flagged
"unrealistically low". -/
theorem validate_amount_claim_false :
    (0 : ℚ) < 50 ∧ (50 : ℚ) ≤ 50000000 ∧
    AmountParser.validate_amount (some 50) =
      (false, ["Amount seems unrealistically low"]) := by decide

/-- C9 (amended): `validate_amount` returns `(True, [])` exactly for
`100 ≤ a ≤ 5×10⁷`; outside that range (including `a < 100`) it returns
`False` with a non-empty issue list, and a `None` amount is invalid. -/
theorem validate_amount_characterization (a : ℚ) :
    (100 ≤ a ∧ a ≤ 50000000 → AmountParser.validate_amount (some a) = (true, [])) ∧
    (a < 100 ∨ 50000000 < a →
      (AmountParser.validate_amount (some a)).1 = false ∧
      (AmountParser.validate_amount (some a)).2 ≠ []) ∧
    AmountParser.validate_amount none = (false, ["Amount is None"]) := by
  refine ⟨?_, ?_, rfl⟩
  · rintro ⟨h1, h2⟩
    simp only [AmountParser.validate_amount]
    rw [if_neg (by simp; linarith), if_neg (by simp; linarith), if_neg (by simp; linarith)]
  · rintro (h | h)
    · simp only [AmountParser.validate_amount]
      rw [if_pos (by simpa using h)]
      refine ⟨rfl, ?_⟩
      simp
    · simp only [AmountParser.validate_amount]
      rw [if_neg (by simp; linarith), if_pos (by simpa using h),
        if_neg (by simp; linarith)]
      exact ⟨rfl, by simp⟩

/-- C9 (amended, witness). -/
theorem validate_amount_characterization_witness :
    AmountParser.validate_amount (some 1000) = (true, []) ∧
    (AmountParser.validate_amount (some 50)).1 = false :=
  ⟨(validate_amount_characterization 1000).1 ⟨by decide, by decide⟩,
   ((validate_amount_characterization 50).2.1 (Or.inl (by decide))).1⟩

/-- C10: for every scraped scholarship, `_calculate_quality_score` yields an
integer between 33 (the sum of the per-component floors
`10 + 5 + 5 + 5 + 5 + 3`) and 100 (the explicit cap) inclusive. -/
theorem quality_score_in_range (today : ℤ) (s : Scraping.ScrapedScholarship) :
    33 ≤ Scraping.calculate_quality_score today s ∧
      Scraping.calculate_quality_score today s ≤ 100 :=
  quality_score_bounds today s

end Scholarship

